import Mathlib

/-!
# Verification of the genai simulation-engine backend

Shallow embedding of the parts of the `genai` repository that the claims
C1..C10 are about:

* `backend/database_manager.py` (`DatabaseManager`): sessions, days,
  dialogues, messages and NPC-memory tables with sequential integer IDs.
* `backend/agents/memory_agent.py` (`MemoryAgent`): `add_message`,
  `end_dialogue`, the per-NPC / per-session / per-day memory buffers.
* `backend/agents/dialogue_handler.py` (`DialogueHandler`): `count_tokens`,
  the goodbye lexicon, and the bounded turn loop of
  `execute_scheduled_dialogue`.
* `backend/agents/flow_agents/schedule_agent.py` (`ScheduleAgent.set_schedule`).
* `backend/agents/flow_agents/lifecycle_agent.py`
  (`LifeCycleAgent.decide_life_cycles` / `update_life_cycle_map`).

Modelling conventions:

* `datetime.now()` stamps are passed in explicitly as `now : Nat`
  (resp. `clock_hm : String` for the `%H:%M` stamp used by
  `_update_npc_memory`); the model is otherwise deterministic.
* Python's decimal-string IDs `str(n)` are modelled by the underlying
  natural number `n`; none of the claims depend on the decimal rendering.
* Every LLM response is an input of the model (an oracle argument): the
  dialogue loop takes the generated text/timeout outcome per turn, the
  scheedule and lifecycle agents take the already-parsed CSV lists.
* Background summarization threads (`threading.Thread(...).start()`) only
  record their process-local "in-flight" marker in the model; the
  asynchronous buffer rewrite itself is outside the claims below.
* Python dicts are modelled as insertion-ordered association lists, SQL
  tables as lists of rows with the obvious key predicates.
-/

namespace GenAI

/-- Python's `str.strip()` (whitespace removed at both ends), on the
character list of the string so that it evaluates by kernel reduction. -/
def pyStrip (s : String) : String :=
  ⟨((s.data.dropWhile Char.isWhitespace).reverse.dropWhile Char.isWhitespace).reverse⟩

/-- Python's `str.lower()`, on the character list (ASCII case mapping,
which covers every string the code compares). -/
def pyLower (s : String) : String :=
  ⟨s.data.map Char.toLower⟩

/-- `TimePeriod` enum from `backend/agents/dataclasses.py`. -/
inductive TimePeriod where
  | morning
  | noon
  | afternoon
  | evening
  | night
deriving Repr, DecidableEq

/-- `.value` of the Python enum member. -/
def TimePeriod.value : TimePeriod → String
  | .morning => "morning"
  | .noon => "noon"
  | .afternoon => "afternoon"
  | .evening => "evening"
  | .night => "night"

/-- `Message` dataclass from `backend/agents/dataclasses.py`. -/
structure Message where
  message_id : Nat
  dialogue_id : Nat
  sender : String
  receiver : String
  message_text : String
  timestamp : Nat
  sender_opinion : Option String := none
  receiver_opinion : Option String := none
deriving Repr, DecidableEq

/-- `Dialogue` dataclass from `backend/agents/dataclasses.py`. -/
structure Dialogue where
  dialogue_id : Nat
  session_id : String
  initiator : String
  receiver : String
  day : Nat
  location : String
  time_period : TimePeriod
  started_at : Nat
  ended_at : Option Nat := none
  message_ids : List Nat := []
  summary : Option String := none
  summary_length : Nat := 0
  total_text_length : Nat := 0
deriving Repr, DecidableEq

/-- `SessionData` dataclass from `backend/agents/dataclasses.py`.
The opaque configuration blobs `game_settings` / `agent_settings` are kept
as their JSON dumps. -/
structure SessionData where
  session_id : String
  created_at : Nat
  last_updated : Nat
  current_day : Nat
  current_time_period : TimePeriod
  game_settings : String := ""
  agent_settings : String := ""
  reputations : List (String × String) := []
  session_summary : String := ""
  active_npcs : List String := []
  dialogue_ids : List Nat := []
deriving Repr, DecidableEq

/-- `DayData` dataclass from `backend/agents/dataclasses.py`. -/
structure DayData where
  session_id : String
  day : Nat
  time_period : TimePeriod
  started_at : Nat
  ended_at : Option Nat := none
  dialogue_ids : List Nat := []
  metadata : String := ""
  active_npcs : List String := []
  passive_npcs : List String := []
  day_summary : Option String := none
deriving Repr, DecidableEq

/-- `NPCMemory` dataclass from `backend/agents/dataclasses.py`.
`character_properties` is an opaque JSON blob; Python's falsy values
(`None` and `{}`) are modelled as `none`.  `opinion_on_npcs`,
`world_knowledge` and `social_stance` are opaque to the claims and kept
as blobs/association lists. -/
structure NPCMemory where
  npc_name : String
  session_id : String
  dialogue_ids : List Nat := []
  messages_summary : String := ""
  messages_summary_length : Nat := 0
  created_at : Nat := 0
  last_updated : Nat := 0
  last_summarized : Option Nat := none
  opinion_on_npcs : List (String × String) := []
  world_knowledge : String := ""
  social_stance : List (String × String) := []
  character_properties : Option String := none
deriving Repr, DecidableEq

/-! ## Generic keyed-table operations

`UPDATE ... WHERE key` and `INSERT OR REPLACE` / upsert statements of
`database_manager.py` are modelled uniformly on lists of rows. -/

/-- `UPDATE <table> SET ... WHERE key`: rewrite every row matching `key`
with `f`. -/
def modifyWhere (key : α → Bool) (f : α → α) (l : List α) : List α :=
  l.map fun r => if key r then f r else r

/-- Upsert: if some row matches `key`, rewrite the matching rows with `f`;
otherwise append the fresh row `item` (SQLite
`INSERT ... ON CONFLICT DO UPDATE` and `INSERT OR REPLACE`). -/
def upsertWhere (key : α → Bool) (f : α → α) (item : α) (l : List α) : List α :=
  if l.any key then modifyWhere key f l else l ++ [item]

theorem modifyWhere_cons (key : α → Bool) (f : α → α) (a : α) (l : List α) :
    modifyWhere key f (a :: l) =
      (if key a then f a else a) :: modifyWhere key f l := by
  simp [modifyWhere]

theorem modifyWhere_eq_of_not_any (key : α → Bool) (f : α → α) (l : List α)
    (h : l.any key = false) : modifyWhere key f l = l := by
  induction l with
  | nil => rfl
  | cons a l ih =>
    simp only [List.any_cons, Bool.or_eq_false_iff] at h
    rw [modifyWhere_cons, if_neg (by simp [h.1]), ih h.2]

theorem find?_modifyWhere_self (key : α → Bool) (f : α → α) (l : List α) (r : α)
    (h : l.find? key = some r) (hfr : key (f r) = true) :
    (modifyWhere key f l).find? key = some (f r) := by
  induction l with
  | nil => simp [List.find?] at h
  | cons a l ih =>
    cases ha : key a with
    | true =>
      rw [List.find?_cons_of_pos _ ha] at h
      injection h with h
      subst h
      rw [modifyWhere_cons, if_pos ha, List.find?_cons_of_pos _ hfr]
    | false =>
      rw [List.find?_cons_of_neg _ (by simp [ha])] at h
      rw [modifyWhere_cons, if_neg (by simp [ha]),
          List.find?_cons_of_neg _ (by simp [ha])]
      exact ih h

theorem find?_modifyWhere_other (key key' : α → Bool) (f : α → α) (l : List α)
    (hd : ∀ x, key x = true → key' x = false)
    (hdf : ∀ x, key x = true → key' (f x) = false) :
    (modifyWhere key f l).find? key' = l.find? key' := by
  induction l with
  | nil => rfl
  | cons a l ih =>
    cases ha : key a with
    | true =>
      rw [modifyWhere_cons, if_pos ha,
          List.find?_cons_of_neg _ (by simp [hdf a ha]),
          List.find?_cons_of_neg _ (by simp [hd a ha])]
      exact ih
    | false =>
      rw [modifyWhere_cons, if_neg (by simp [ha])]
      cases hk : key' a with
      | true => rw [List.find?_cons_of_pos _ hk, List.find?_cons_of_pos _ hk]
      | false =>
        rw [List.find?_cons_of_neg _ (by simp [hk]),
            List.find?_cons_of_neg _ (by simp [hk])]
        exact ih

theorem find?_append_left (key : α → Bool) (l₁ l₂ : List α) (r : α)
    (h : l₁.find? key = some r) : (l₁ ++ l₂).find? key = some r := by
  induction l₁ with
  | nil => simp [List.find?] at h
  | cons a l ih =>
    cases ha : key a with
    | true =>
      rw [List.find?_cons_of_pos _ ha] at h
      rw [List.cons_append, List.find?_cons_of_pos _ ha]
      exact h
    | false =>
      rw [List.find?_cons_of_neg _ (by simp [ha])] at h
      rw [List.cons_append, List.find?_cons_of_neg _ (by simp [ha])]
      exact ih h

theorem find?_append_of_none (key : α → Bool) (l₁ l₂ : List α)
    (h : l₁.find? key = none) : (l₁ ++ l₂).find? key = l₂.find? key := by
  induction l₁ with
  | nil => rfl
  | cons a l ih =>
    cases ha : key a with
    | true =>
      rw [List.find?_cons_of_pos _ ha] at h
      exact absurd h (by simp)
    | false =>
      rw [List.find?_cons_of_neg _ (by simp [ha])] at h
      rw [List.cons_append, List.find?_cons_of_neg _ (by simp [ha])]
      exact ih h

theorem find?_upsertWhere_other (key key' : α → Bool) (f : α → α) (item : α)
    (l : List α)
    (hd : ∀ x, key x = true → key' x = false)
    (hdf : ∀ x, key x = true → key' (f x) = false)
    (hitem : key' item = false) :
    (upsertWhere key f item l).find? key' = l.find? key' := by
  unfold upsertWhere
  by_cases hany : l.any key = true
  · rw [if_pos hany]
    exact find?_modifyWhere_other key key' f l hd hdf
  · rw [if_neg hany]
    cases hfind : l.find? key' with
    | some r => exact find?_append_left key' l [item] r hfind
    | none =>
      rw [find?_append_of_none key' l [item] hfind]
      simp [List.find?, hitem]

theorem find?_upsertWhere_self_replace (key : α → Bool) (item : α) (l : List α)
    (hitem : key item = true) :
    (upsertWhere key (fun _ => item) item l).find? key = some item := by
  unfold upsertWhere
  by_cases hany : l.any key = true
  · rw [if_pos hany]
    obtain ⟨x, hx, hkx⟩ := List.any_eq_true.mp hany
    have hsome : (l.find? key).isSome := List.find?_isSome.mpr ⟨x, hx, hkx⟩
    obtain ⟨r, hr⟩ := Option.isSome_iff_exists.mp hsome
    exact find?_modifyWhere_self key (fun _ => item) l r hr hitem
  · rw [if_neg hany]
    have hnone : l.find? key = none := by
      cases hf : l.find? key with
      | none => rfl
      | some r =>
        exact absurd (List.any_eq_true.mpr
          ⟨r, List.mem_of_find?_eq_some hf, List.find?_some hf⟩) hany
    rw [find?_append_of_none key l [item] hnone]
    simp [List.find?, hitem]

/-! ## `DatabaseManager` (backend/database_manager.py)

The SQLite store is modelled as lists of rows plus the `id_counters`
table (only the `dialogues` and `messages` counters matter here; the
`sessions` counter is kept for `create_session`'s id-allocation branch). -/

/-- The durable store owned by `DatabaseManager`. -/
structure DBState where
  sessions : List SessionData := []
  days : List DayData := []
  dialogues : List Dialogue := []
  messages : List Message := []
  npc_memories : List NPCMemory := []
  next_session_id : Nat := 0
  next_dialogue_id : Nat := 0
  next_message_id : Nat := 0

/-- `_get_next_id('dialogues')`: reserve the current counter value after
aligning it with `max(existing dialogue ids) + 1` (import tolerance), and
store the incremented counter. -/
def DBState.allocDialogueId (db : DBState) : Nat × DBState :=
  let current := db.next_dialogue_id
  let current := match (db.dialogues.map (·.dialogue_id)).max? with
    | some m => if m + 1 > current then m + 1 else current
    | none => current
  (current, { db with next_dialogue_id := current + 1 })

/-- `_get_next_id('messages')`, aligned with existing message ids. -/
def DBState.allocMessageId (db : DBState) : Nat × DBState :=
  let current := db.next_message_id
  let current := match (db.messages.map (·.message_id)).max? with
    | some m => if m + 1 > current then m + 1 else current
    | none => current
  (current, { db with next_message_id := current + 1 })

/-- `_get_next_id('sessions')`: no baseline alignment is attempted for
sessions (ids may be non-numeric). -/
def DBState.allocSessionId (db : DBState) : Nat × DBState :=
  (db.next_session_id, { db with next_session_id := db.next_session_id + 1 })

/-- Key predicate of the `sessions` table. -/
def sessionKey (sid : String) : SessionData → Bool :=
  fun r => r.session_id == sid

/-- Key predicate of the `days` table (`(session_id, day)` primary key). -/
def dayKey (sid : String) (day : Nat) : DayData → Bool :=
  fun r => r.session_id == sid && r.day == day

/-- Key predicate of the `dialogues` table. -/
def dialogueKey (id : Nat) : Dialogue → Bool :=
  fun r => r.dialogue_id == id

/-- Key predicate of the `npc_memories` table (`(npc_name, session_id)`). -/
def npcMemoryKey (npc : String) (sid : String) : NPCMemory → Bool :=
  fun r => r.npc_name == npc && r.session_id == sid

/-- The insert half of `DatabaseManager.create_session`: build the fresh
row (`current_day=1`, `current_period=morning`, empty collections) and
`INSERT OR REPLACE` it. -/
def DBState.create_session_with_id (db : DBState) (sid : String)
    (game_settings agent_settings : String) (now : Nat) :
    DBState × SessionData :=
  let session : SessionData :=
    { session_id := sid, created_at := now, last_updated := now,
      current_day := 1, current_time_period := .morning,
      game_settings := game_settings, agent_settings := agent_settings }
  ({ db with
      sessions := upsertWhere (sessionKey sid) (fun _ => session) session db.sessions },
   session)

/-- `DatabaseManager.create_session`: allocates an id from the
`sessions` counter when none (or a blank one) is given, then inserts the
fresh row. -/
def DBState.create_session (db : DBState) (session_id : Option String)
    (game_settings agent_settings : String) (now : Nat) :
    DBState × SessionData :=
  match session_id with
  | none =>
    let (n, db) := db.allocSessionId
    db.create_session_with_id (toString n) game_settings agent_settings now
  | some s =>
    if pyStrip s == "" then
      let (n, db) := db.allocSessionId
      db.create_session_with_id (toString n) game_settings agent_settings now
    else db.create_session_with_id s game_settings agent_settings now

/-- `DatabaseManager.get_session`. -/
def DBState.get_session (db : DBState) (session_id : String) : Option SessionData :=
  db.sessions.find? (sessionKey session_id)

/-- `DatabaseManager.update_session`: stamps `last_updated` and rewrites
every column of the matching row except `session_id` and `created_at`. -/
def DBState.update_session (db : DBState) (s : SessionData) (now : Nat) : DBState :=
  { db with
      sessions := modifyWhere (sessionKey s.session_id)
        (fun r => { s with created_at := r.created_at, last_updated := now })
        db.sessions }

/-- `DatabaseManager.create_day`: `INSERT ... ON CONFLICT(session_id, day)
DO UPDATE SET time_period, active_npcs, passive_npcs`.  The fresh row has
`ended_at = NULL`, `day_summary = NULL`, empty `dialogue_ids` and
metadata; on conflict only the three listed columns are overwritten. -/
def DBState.create_day (db : DBState) (session_id : String) (day : Nat)
    (time_period : TimePeriod) (active_npcs passive_npcs : List String)
    (now : Nat) : DBState × DayData :=
  let day_data : DayData :=
    { session_id := session_id, day := day, time_period := time_period,
      started_at := now, active_npcs := active_npcs, passive_npcs := passive_npcs }
  ({ db with
      days := upsertWhere (dayKey session_id day)
        (fun r => { r with
            time_period := time_period,
            active_npcs := active_npcs,
            passive_npcs := passive_npcs })
        day_data db.days },
   day_data)

/-- `DatabaseManager.get_day`. -/
def DBState.get_day (db : DBState) (session_id : String) (day : Nat) : Option DayData :=
  db.days.find? (dayKey session_id day)

/-- `DatabaseManager.update_day`: rewrites every column of the matching
row except the key and `started_at`. -/
def DBState.update_day (db : DBState) (d : DayData) : DBState :=
  { db with
      days := modifyWhere (dayKey d.session_id d.day)
        (fun r => { d with started_at := r.started_at })
        db.days }

/-- `DatabaseManager.create_dialogue`: allocates the sequential id, stamps
`started_at` and inserts the row. -/
def DBState.create_dialogue (db : DBState) (session_id initiator receiver location : String)
    (day : Nat) (time_period : TimePeriod) (now : Nat) : DBState × Dialogue :=
  let (id, db) := db.allocDialogueId
  let dialogue : Dialogue :=
    { dialogue_id := id, session_id := session_id, initiator := initiator,
      receiver := receiver, day := day, location := location,
      time_period := time_period, started_at := now }
  ({ db with dialogues := db.dialogues ++ [dialogue] }, dialogue)

/-- `DatabaseManager.get_dialogue`. -/
def DBState.get_dialogue (db : DBState) (dialogue_id : Nat) : Option Dialogue :=
  db.dialogues.find? (dialogueKey dialogue_id)

/-- `DatabaseManager.update_dialogue`: `UPDATE dialogues SET ended_at,
message_ids, summary, summary_length, total_text_length WHERE dialogue_id`. -/
def DBState.update_dialogue (db : DBState) (d : Dialogue) : DBState :=
  { db with
      dialogues := modifyWhere (dialogueKey d.dialogue_id)
        (fun r => { r with
            ended_at := d.ended_at,
            message_ids := d.message_ids,
            summary := d.summary,
            summary_length := d.summary_length,
            total_text_length := d.total_text_length })
        db.dialogues }

/-- `DatabaseManager.create_message`: allocates the sequential id, stamps
the timestamp and inserts the row. -/
def DBState.create_message (db : DBState) (dialogue_id : Nat)
    (sender receiver message_text : String)
    (sender_opinion receiver_opinion : Option String) (now : Nat) :
    DBState × Message :=
  let (id, db) := db.allocMessageId
  let message : Message :=
    { message_id := id, dialogue_id := dialogue_id, sender := sender,
      receiver := receiver, message_text := message_text, timestamp := now,
      sender_opinion := sender_opinion, receiver_opinion := receiver_opinion }
  ({ db with messages := db.messages ++ [message] }, message)

/-- `DatabaseManager.get_npc_memory`. -/
def DBState.get_npc_memory (db : DBState) (npc_name session_id : String) :
    Option NPCMemory :=
  db.npc_memories.find? (npcMemoryKey npc_name session_id)

/-- `DatabaseManager.create_or_update_npc_memory`: `INSERT OR REPLACE`
keyed by `(npc_name, session_id)`. -/
def DBState.create_or_update_npc_memory (db : DBState) (m : NPCMemory) : DBState :=
  { db with
      npc_memories := upsertWhere (npcMemoryKey m.npc_name m.session_id)
        (fun _ => m) m db.npc_memories }

/-! ## `MemoryAgent` (backend/agents/memory_agent.py) -/

/-- Exceptions raised by the memory layer.  `memory_agent.py` raises
plain `ValueError`s; `DialogueStateError` (dialogue_handler.py, lines
81-83) is a distinct exception class. -/
inductive MAError where
  | valueError (msg : String)
  | dialogueStateError (msg : String)
deriving Repr, DecidableEq

/-- `true` iff the computation failed with a `DialogueStateError`. -/
def raisesDialogueStateError (r : Except MAError α) : Bool :=
  match r with
  | .error (.dialogueStateError _) => true
  | _ => false

/-- Process state of a `MemoryAgent` instance: the store, the current
session, the in-memory `active_dialogues` dict (keyed by dialogue id)
and the in-flight background-summarization markers.
`character_props` abstracts `get_character_properties` (a pure lookup in
the session's `character_list` settings); `none` stands for Python's
falsy `None`/`{}` result. -/
structure MemoryAgentState where
  db : DBState
  current_session : Option SessionData := none
  active_dialogues : List Dialogue := []
  summarizing_npcs : List String := []
  summarizing_session : Bool := false
  summarizing_days : List (String × Nat) := []
  max_context_length : Nat := 4000
  character_props : String → Option String := fun _ => none

/-- Lookup in the `active_dialogues` dict. -/
def activeLookup (l : List Dialogue) (id : Nat) : Option Dialogue :=
  l.find? (dialogueKey id)

/-- `self.active_dialogues[dialogue_id] = dialogue` (keyed overwrite). -/
def activeInsert (l : List Dialogue) (d : Dialogue) : List Dialogue :=
  upsertWhere (dialogueKey d.dialogue_id) (fun _ => d) d l

/-- `del self.active_dialogues[dialogue_id]`. -/
def activeRemove (l : List Dialogue) (id : Nat) : List Dialogue :=
  l.filter fun r => !(dialogueKey id r)

/-- `MemoryAgent._summarize_npc_memory`: guards, then records the
in-flight marker and launches the background LLM thread (whose later
effect is outside this model). -/
def MemoryAgentState.summarize_npc_memory_mark (st : MemoryAgentState)
    (npc_memory : NPCMemory) : MemoryAgentState :=
  if npc_memory.messages_summary == "" then st
  else if st.summarizing_npcs.contains npc_memory.npc_name then st
  else { st with summarizing_npcs := st.summarizing_npcs ++ [npc_memory.npc_name] }

/-- `MemoryAgent.get_npc_memory` (agent-level): database lookup plus the
`character_properties` backfill, which persists the backfilled row when
the stored one has falsy `character_properties` and the settings provide
properties. -/
def MemoryAgentState.get_npc_memory_agent (st : MemoryAgentState)
    (npc_name : String) (session_id : String) :
    MemoryAgentState × Option NPCMemory :=
  match st.db.get_npc_memory npc_name session_id with
  | none => (st, none)
  | some mem =>
    match mem.character_properties with
    | some _ => (st, some mem)
    | none =>
      match st.character_props npc_name with
      | none => (st, some mem)
      | some props =>
        let mem := { mem with character_properties := some props }
        ({ st with db := st.db.create_or_update_npc_memory mem }, some mem)

/-- `MemoryAgent._update_npc_memory`: fetch (or freshly create) the NPC
memory row, record the dialogue id, append `"\n[HH:MM] message_text"` to
`messages_summary`, recompute `messages_summary_length`, maybe flag
background summarization, and persist. -/
def MemoryAgentState.update_npc_memory_record (st : MemoryAgentState)
    (npc_name : String) (dialogue_id : Nat) (message_text : String)
    (clock_hm : String) (now : Nat) : MemoryAgentState :=
  match st.current_session with
  | none => st
  | some s =>
    let (st, mem0) := st.get_npc_memory_agent npc_name s.session_id
    let npc_memory : NPCMemory :=
      match mem0 with
      | some mem => mem
      | none =>
        { npc_name := npc_name, session_id := s.session_id,
          created_at := now, last_updated := now,
          character_properties := st.character_props npc_name }
    let npc_memory :=
      if dialogue_id ∈ npc_memory.dialogue_ids then npc_memory
      else { npc_memory with dialogue_ids := npc_memory.dialogue_ids ++ [dialogue_id] }
    let conversation_text := "[" ++ clock_hm ++ "] " ++ message_text
    let npc_memory :=
      { npc_memory with
          messages_summary := npc_memory.messages_summary ++ ("\n" ++ conversation_text) }
    let npc_memory :=
      { npc_memory with
          messages_summary_length := npc_memory.messages_summary.length,
          last_updated := now }
    let st :=
      if npc_memory.messages_summary_length > st.max_context_length then
        st.summarize_npc_memory_mark npc_memory
      else st
    { st with db := st.db.create_or_update_npc_memory npc_memory }

/-- `MemoryAgent._summarize_session_memory`: guards, then the in-flight
flag (the background rewrite is outside this model). -/
def MemoryAgentState.summarize_session_memory_mark (st : MemoryAgentState) :
    MemoryAgentState :=
  match st.current_session with
  | none => st
  | some s =>
    if s.session_summary == "" then st
    else if st.summarizing_session then st
    else { st with summarizing_session := true }

/-- `MemoryAgent.append_session_summary`: append `text` to the session
summary (separator `"\n"` only when the buffer is non-empty), persist the
session, and maybe flag background summarization. -/
def MemoryAgentState.append_session_summary (st : MemoryAgentState)
    (text : String) (now : Nat) : MemoryAgentState :=
  match st.current_session with
  | none => st
  | some s =>
    if text == "" then st
    else
      let sep := if s.session_summary == "" then "" else "\n"
      let s := { s with session_summary := s.session_summary ++ sep ++ text }
      let st := { st with
        current_session := some s,
        db := st.db.update_session s now }
      if s.session_summary.length > st.max_context_length then
        st.summarize_session_memory_mark
      else st

/-- `MemoryAgent._summarize_day_memory`: guards, then the in-flight
marker keyed by `(session_id, day)`. -/
def MemoryAgentState.summarize_day_memory_mark (st : MemoryAgentState)
    (day : Nat) : MemoryAgentState :=
  match st.current_session with
  | none => st
  | some s =>
    if st.summarizing_days.contains (s.session_id, day) then st
    else
      match st.db.get_day s.session_id day with
      | none => st
      | some dd =>
        if (dd.day_summary.getD "").trim == "" then st
        else { st with summarizing_days := st.summarizing_days ++ [(s.session_id, day)] }

/-- `MemoryAgent.append_day_summary`: append `text` to
`DayData.day_summary` for the given day of the current session
(separator `"\n"` only when the buffer is non-empty), persist the day
row, and maybe flag background summarization. -/
def MemoryAgentState.append_day_summary (st : MemoryAgentState)
    (day : Nat) (text : String) (now : Nat) : MemoryAgentState :=
  match st.current_session with
  | none => st
  | some s =>
    if text == "" then st
    else
      match st.db.get_day s.session_id day with
      | none => st
      | some dd =>
        let sep := if (dd.day_summary.getD "") == "" then "" else "\n"
        let dd := { dd with
          day_summary := some ((dd.day_summary.getD "") ++ sep ++ text) }
        let st := { st with db := st.db.update_day dd }
        if (dd.day_summary.getD "").length > st.max_context_length then
          st.summarize_day_memory_mark day
        else st

/-- The `"[Day D period] sender -> receiver: text"` line appended by
`MemoryAgent.add_message` to the session and day summaries. -/
def stampedLine (day : Nat) (tp : TimePeriod) (sender receiver text : String) : String :=
  "[Day " ++ toString day ++ " " ++ tp.value ++ "]" ++ " " ++ sender ++ " -> " ++ receiver ++ ": " ++ text

/-- The load step at the top of `MemoryAgent.add_message` (lines
231-245): when the dialogue is not in `active_dialogues`, fetch it from
the database, cache it, make sure the current session lists it, and fail
with `ValueError` only when the row does not exist. -/
def MemoryAgentState.add_message_load (st : MemoryAgentState) (dialogue_id : Nat)
    (now : Nat) : Except MAError (MemoryAgentState × Dialogue) :=
  match activeLookup st.active_dialogues dialogue_id with
  | some d => .ok (st, d)
  | none =>
    match st.db.get_dialogue dialogue_id with
    | none => .error (.valueError ("Dialogue " ++ toString dialogue_id ++ " not found"))
    | some dialogue =>
      let st := { st with active_dialogues := activeInsert st.active_dialogues dialogue }
      match st.current_session with
      | none => .ok (st, dialogue)
      | some s =>
        if dialogue_id ∈ s.dialogue_ids then .ok (st, dialogue)
        else
          let s := { s with dialogue_ids := s.dialogue_ids ++ [dialogue_id] }
          .ok ({ st with
                  current_session := some s,
                  db := st.db.update_session s now }, dialogue)

/-- The memory-update tail of `MemoryAgent.add_message` (lines 263-294):
update both participants' NPC memories, then append the stamped
`"[Day D period] sender -> receiver: text"` line to the session summary
and the current day's summary (only when a session is loaded). -/
def MemoryAgentState.add_message_memories (st : MemoryAgentState) (dialogue : Dialogue)
    (sender receiver message_text : String) (clock_hm : String) (now : Nat) :
    MemoryAgentState :=
  let st := st.update_npc_memory_record sender dialogue.dialogue_id message_text clock_hm now
  let st := st.update_npc_memory_record receiver dialogue.dialogue_id message_text clock_hm now
  match st.current_session with
  | none => st
  | some s =>
    let line := stampedLine dialogue.day dialogue.time_period sender receiver message_text
    let st := st.append_session_summary line now
    st.append_day_summary s.current_day line now

/-- The rest of `MemoryAgent.add_message` (lines 247-296), run once the
dialogue is in the active cache: create the message row, extend the
dialogue's `message_ids` and `total_text_length` (persisted and cached),
then run the memory updates above. -/
def MemoryAgentState.add_message_loaded (st : MemoryAgentState) (dialogue : Dialogue)
    (sender receiver message_text : String) (clock_hm : String) (now : Nat) :
    MemoryAgentState × Message :=
  let (db, message) :=
    st.db.create_message dialogue.dialogue_id sender receiver message_text none none now
  let st := { st with db := db }
  let dialogue := { dialogue with
    message_ids := dialogue.message_ids ++ [message.message_id],
    total_text_length := dialogue.total_text_length + message_text.length }
  let st := { st with
    active_dialogues := activeInsert st.active_dialogues dialogue,
    db := st.db.update_dialogue dialogue }
  (st.add_message_memories dialogue sender receiver message_text clock_hm now, message)

/-- `MemoryAgent.add_message` (memory_agent.py, lines 227-296).

If the dialogue is not in `active_dialogues`, it is loaded from the
database and cached (raising `ValueError` only when the row does not
exist); then the message row is created, the dialogue's `message_ids`
and `total_text_length` are updated and persisted, both participants'
NPC-memory buffers are extended, and the stamped line is appended to the
session summary and the current day's summary. -/
def MemoryAgentState.add_message (st : MemoryAgentState) (dialogue_id : Nat)
    (sender receiver message_text : String) (clock_hm : String) (now : Nat) :
    Except MAError (MemoryAgentState × Message) :=
  match st.add_message_load dialogue_id now with
  | .error e => .error e
  | .ok (st, dialogue) =>
    .ok (st.add_message_loaded dialogue sender receiver message_text clock_hm now)

/-- `MemoryAgent.end_dialogue` (memory_agent.py, lines 298-319): raises
`ValueError` when the dialogue is not in `active_dialogues`; otherwise
stamps `ended_at`, optionally records the summary, persists, and removes
the dialogue from the active set. -/
def MemoryAgentState.end_dialogue (st : MemoryAgentState) (dialogue_id : Nat)
    (summary : Option String) (now : Nat) :
    Except MAError (MemoryAgentState × Dialogue) :=
  match activeLookup st.active_dialogues dialogue_id with
  | none => .error (.valueError ("Dialogue " ++ toString dialogue_id ++ " not found"))
  | some dialogue =>
    let dialogue := { dialogue with ended_at := some now }
    let dialogue :=
      match summary with
      | some sm =>
        if sm == "" then dialogue
        else { dialogue with summary := some sm, summary_length := sm.length }
      | none => dialogue
    let st := { st with
      db := st.db.update_dialogue dialogue,
      active_dialogues := activeRemove st.active_dialogues dialogue_id }
    .ok (st, dialogue)

/-! ## `DialogueHandler` (backend/agents/dialogue_handler.py) -/

/-- Auxiliary: count of maximal non-whitespace runs — the length of
Python's `text.split()`. -/
def wordCountAux : List Char → Bool → Nat
  | [], _ => 0
  | c :: cs, inWord =>
    if c.isWhitespace then wordCountAux cs false
    else (if inWord then 0 else 1) + wordCountAux cs true

/-- `len(text.split())`. -/
def wordCount (text : String) : Nat :=
  wordCountAux text.data false

/-- `count_tokens` (dialogue_handler.py, lines 25-27):
`int(len(text.split()) * 1.3)`.  CPython truncates the float product
toward zero; for every word count in the representable range this equals
`⌊13·w/10⌋`, which is what the model computes exactly. -/
def count_tokens (text : String) : Nat :=
  13 * wordCount text / 10

/-- Boolean list-prefix test. -/
def isPrefixList [BEq α] : List α → List α → Bool
  | [], _ => true
  | _ :: _, [] => false
  | a :: l, b :: m => a == b && isPrefixList l m

/-- Boolean list-infix test. -/
def isInfixList [BEq α] : List α → List α → Bool
  | pat, [] => pat.isEmpty
  | pat, l@(_ :: t) => isPrefixList pat l || isInfixList pat t

/-- Python's substring operator `pat in s`. -/
def strContains (s pat : String) : Bool :=
  isInfixList pat.data s.data

/-- The goodbye lexicon of `DialogueHandler._contains_goodbye`. -/
def goodbye_phrases : List String :=
  ["goodbye", "bye", "farewell", "see you later",
   "see you", "talk later", "gotta go", "need to go",
   "have to go", "must go", "take care", "until next time"]

/-- `DialogueHandler._contains_goodbye`: case-insensitive substring match
against the fixed lexicon. -/
def contains_goodbye (message : String) : Bool :=
  goodbye_phrases.any fun phrase => strContains (pyLower message) phrase

/-- The fallback text used on generation timeout/invalid output and in
the append-failure branch. -/
def fallbackText : String := "I need to go now. Goodbye!"

/-- The limit parameters of a `DialogueHandler` instance. -/
structure DialogueConfig where
  max_messages_per_dialogue : Nat := 10
  max_tokens_per_dialogue : Nat := 2000
  goodbye_threshold : Nat := 2
deriving Repr, DecidableEq

/-- Outcome of one `_generate_npc_message` call, as seen by the turn
loop.  `ok text` is the NPC agent's reply (before `strip()`); `timeout`
is `asyncio.TimeoutError` in `wait_for` (caught inside
`_generate_npc_message`, which returns the fallback text); `invalid` is
a falsy / non-string reply (also mapped to the fallback text). -/
inductive GenOutcome where
  | ok (text : String)
  | timeout
  | invalid
deriving Repr, DecidableEq

/-- Environment of one dialogue execution: the generation outcome per
turn index (also given the `force_goodbye` flag it was called with), and
whether the store append (`_safe_add_message`, after its 3 retries)
succeeds — first for the generated message, then for the fallback
message of the `except` branch. -/
structure DialogueOracle where
  gen : Nat → Bool → GenOutcome
  append_ok : Nat → Bool
  fallback_append_ok : Nat → Bool

/-- The per-turn counters and the messages appended to the dialogue so
far (sender, receiver, text). -/
structure TurnState where
  message_count : Nat := 0
  total_tokens : Nat := 0
  goodbye_count : Nat := 0
  speaker : String
  listener : String
  messages : List (String × String × String) := []
  ended : Bool := false
deriving Repr, DecidableEq

/-- `force_goodbye` computed at the top of each turn:
`goodbye_count > 0 or message_count >= max_messages - 2 or
total_tokens >= max_tokens * 0.9` (the comparisons are over Python ints
resp. an exact rational `0.9`). -/
def forceGoodbyeFlag (cfg : DialogueConfig) (s : TurnState) : Bool :=
  decide (0 < s.goodbye_count) ||
  decide (s.message_count + 2 ≥ cfg.max_messages_per_dialogue) ||
  decide (10 * s.total_tokens ≥ 9 * cfg.max_tokens_per_dialogue)

/-- Result of one loop iteration: continue with the next turn, or leave
the loop (`break` after a failed fallback append). -/
inductive LoopStep where
  | nextTurn (s : TurnState)
  | stopLoop (s : TurnState)
deriving Repr, DecidableEq

/-- One iteration of the `while` loop of `execute_scheduled_dialogue`
(dialogue_handler.py, lines 274-387), entered with the loop guard
already checked.

`try` branch: generate (timeout/invalid map to the fallback text, empty
text after `strip()` maps to the fallback text), accumulate tokens,
count goodbye phrases, append the message.  `except` branch (reached
when the append fails): substitute the fallback text, set
`goodbye_count := goodbye_threshold`, and try to append the fallback;
on a second failure, `break` out of the loop.  Afterwards the message
counter is incremented and speaker/listener swap. -/
def dialogue_turn (cfg : DialogueConfig) (oracle : DialogueOracle)
    (n : Nat) (s : TurnState) : LoopStep :=
  let raw :=
    match oracle.gen n (forceGoodbyeFlag cfg s) with
    | .ok text => pyStrip text
    | .timeout => fallbackText
    | .invalid => fallbackText
  let message_text := if raw == "" then fallbackText else raw
  let message_tokens := count_tokens message_text
  let total_tokens := s.total_tokens + message_tokens
  let goodbye_count :=
    if contains_goodbye message_text then s.goodbye_count + 1 else s.goodbye_count
  if oracle.append_ok n then
    .nextTurn { s with
      total_tokens := total_tokens,
      goodbye_count := goodbye_count,
      messages := s.messages ++ [(s.speaker, s.listener, message_text)],
      message_count := s.message_count + 1,
      speaker := s.listener,
      listener := s.speaker }
  else if oracle.fallback_append_ok n then
    .nextTurn { s with
      total_tokens := total_tokens,
      goodbye_count := cfg.goodbye_threshold,
      messages := s.messages ++ [(s.speaker, s.listener, fallbackText)],
      message_count := s.message_count + 1,
      speaker := s.listener,
      listener := s.speaker }
  else
    .stopLoop { s with
      total_tokens := total_tokens,
      goodbye_count := cfg.goodbye_threshold }

/-- The guard of the `while` loop. -/
def loopGuard (cfg : DialogueConfig) (s : TurnState) : Bool :=
  decide (s.message_count < cfg.max_messages_per_dialogue) &&
  decide (s.total_tokens < cfg.max_tokens_per_dialogue) &&
  decide (s.goodbye_count < cfg.goodbye_threshold)

/-- The turn loop, fuelled.  Each executed iteration increments
`message_count`, so fuel `max_messages_per_dialogue - message_count`
never runs out while the guard holds; the wrapper below supplies it. -/
def dialogue_loop (cfg : DialogueConfig) (oracle : DialogueOracle) :
    Nat → Nat → TurnState → TurnState
  | 0, _, s => s
  | fuel + 1, n, s =>
    if loopGuard cfg s then
      match dialogue_turn cfg oracle n s with
      | .nextTurn s' => dialogue_loop cfg oracle fuel (n + 1) s'
      | .stopLoop s' => s'
    else s

/-- `DialogueHandler.execute_scheduled_dialogue`, reduced to its turn
loop followed by `_safe_end_dialogue` (which stamps `ended_at`): run the
loop from zeroed counters with the initiator speaking first, then mark
the dialogue as ended. -/
def execute_scheduled_dialogue (cfg : DialogueConfig) (oracle : DialogueOracle)
    (initiator_name responder_name : String) : TurnState :=
  let s0 : TurnState := { speaker := initiator_name, listener := responder_name }
  let s := dialogue_loop cfg oracle cfg.max_messages_per_dialogue 0 s0
  { s with ended := true }

/-! ## `ScheduleAgent` (backend/agents/flow_agents/schedule_agent.py) -/

/-- `ScheduleAgent.schedule_character`, with the parsed CSV reply of the
LLM (resp. of the first-available-partner fallback) as the `suggestion`
input: keep only names that differ from the speaker and appear in the
active list. -/
def schedule_character (npc_name : String) (active_character_names : List String)
    (suggestion : List String) : List String :=
  suggestion.filter fun r => r != npc_name && active_character_names.contains r

/-- The per-phase pair set built by the inner loops of
`ScheduleAgent.set_schedule`: for each active speaker, filter its
suggestions once more (`r in all_npc_names and r != name`), then add
`(name, r)` unless either orientation is already present. -/
def phase_pairs (active_npcs : List String) (all_npc_names : List String)
    (sugg : String → List String) : List (String × String) :=
  active_npcs.foldl
    (fun acc name =>
      let schedule :=
        (schedule_character name active_npcs (sugg name)).filter
          fun r => all_npc_names.contains r && r != name
      schedule.foldl
        (fun acc2 recipient =>
          if !acc2.contains (recipient, name) && !acc2.contains (name, recipient) then
            acc2 ++ [(name, recipient)]
          else acc2)
        acc)
    []

/-- `ScheduleAgent.set_schedule`: empty-roster guard, then one pair set
per phase.  `suggestions phase name` is the parsed CSV the LLM returned
for `name` in `phase`. -/
def set_schedule (active_npcs_from_lifecycle_agent : List String)
    (all_npc_names : List String) (suggestions : String → String → List String)
    (phases : List String) : List (String × List (String × String)) :=
  if all_npc_names.isEmpty then phases.map fun p => (p, [])
  else phases.map fun p =>
    (p, phase_pairs active_npcs_from_lifecycle_agent all_npc_names (suggestions p))

/-! ## `LifeCycleAgent` (backend/agents/flow_agents/lifecycle_agent.py) -/

/-- `LifeCycleAgent.decide_life_cycles` (lines 104-125), with the parsed
CSV reply as input: keep only roster names; when none survive (or
parsing failed), fall back to the full roster. -/
def decide_life_cycles (valid_character_names : List String)
    (raw_list : List String) : List String :=
  let response_list := raw_list.filter fun n => valid_character_names.contains n
  if response_list.isEmpty then valid_character_names else response_list

/-- Insertion-ordered dict write `m[k] = v`. -/
def mapInsert (m : List (String × String)) (k v : String) : List (String × String) :=
  upsertWhere (fun p => p.1 == k) (fun _ => (k, v)) (k, v) m

/-- `LifeCycleAgent.update_life_cycle_map` (lines 127-158): mark the
decided characters active, fall back to the first two roster names if no
valid active character was found, mark the remaining roster passive, and
return the active and passive name lists. -/
def update_life_cycle_map (valid_character_names : List String)
    (raw_list : List String) : List String × List String :=
  let active_character_list := decide_life_cycles valid_character_names raw_list
  let m : List (String × String) :=
    active_character_list.foldl
      (fun m c => if valid_character_names.contains c then mapInsert m c "active" else m)
      []
  let m :=
    if m.isEmpty then
      (valid_character_names.take 2).foldl (fun m c => mapInsert m c "active") m
    else m
  let m :=
    valid_character_names.foldl
      (fun m c => if m.any (fun p => p.1 == c) then m else mapInsert m c "passive")
      m
  ((m.filter fun p => p.2 == "active").map (·.1),
   (m.filter fun p => p.2 == "passive").map (·.1))

/-! ## Claim C5: token counting -/

/-- The token formula claimed by the spec:
`⌈0.3·word_count + word_count⌉ = ⌈13·w/10⌉`, as a natural-number
ceiling.  (Stated from the spec's words, for comparison with
`count_tokens`, which is translated from the code.) -/
def specCeilTokens (text : String) : Nat :=
  (13 * wordCount text + 9) / 10

/-- C5 counterexample: for the one-word text `"hello"` the code computes
`int(1 * 1.3) = 1`, while the claimed ceiling `⌈1.3⌉` is `2`. -/
theorem count_tokens_ne_ceil_counterexample :
    count_tokens "hello" = 1 ∧ specCeilTokens "hello" = 2 ∧
    count_tokens "hello" ≠ specCeilTokens "hello" := by
  refine ⟨by decide, by decide, by decide⟩

/-- C5 (amended): the accumulated token count of a message equals the
floor (not the ceiling) of `0.3·word_count + word_count`:
`count_tokens text = w + ⌊3·w/10⌋ = ⌊13·w/10⌋` for `w` the number of
whitespace-separated words. -/
theorem count_tokens_is_floor (text : String) :
    count_tokens text = wordCount text + 3 * wordCount text / 10 := by
  unfold count_tokens
  omega

/-! ## Claim C9: `create_day` upsert touches only three columns -/

/-- C9: when a `(session_id, day)` row already exists, `create_day`
overwrites only `time_period`, `active_npcs` and `passive_npcs` of that
row; `started_at`, `ended_at`, `dialogue_ids`, `metadata` and
`day_summary` keep their stored values, all other day rows and all
other tables are untouched. -/
theorem create_day_upsert_frame (db : DBState) (sid : String) (day : Nat)
    (tp : TimePeriod) (act pas : List String) (now : Nat) (r : DayData)
    (h : db.get_day sid day = some r) :
    ((db.create_day sid day tp act pas now).1.get_day sid day =
        some { r with time_period := tp, active_npcs := act, passive_npcs := pas }) ∧
    (∀ sid2 day2, ¬(sid2 = sid ∧ day2 = day) →
        (db.create_day sid day tp act pas now).1.get_day sid2 day2 = db.get_day sid2 day2) ∧
    (db.create_day sid day tp act pas now).1.sessions = db.sessions ∧
    (db.create_day sid day tp act pas now).1.dialogues = db.dialogues ∧
    (db.create_day sid day tp act pas now).1.messages = db.messages ∧
    (db.create_day sid day tp act pas now).1.npc_memories = db.npc_memories := by
  have hkey : dayKey sid day r = true := List.find?_some h
  have hmem : r ∈ db.days := List.mem_of_find?_eq_some h
  have hany : db.days.any (dayKey sid day) = true :=
    List.any_eq_true.mpr ⟨r, hmem, hkey⟩
  refine ⟨?_, ?_, rfl, rfl, rfl, rfl⟩
  · show (upsertWhere (dayKey sid day) _ _ db.days).find? (dayKey sid day) = _
    unfold upsertWhere
    rw [if_pos hany]
    exact find?_modifyWhere_self (dayKey sid day) _ db.days r h hkey
  · intro sid2 day2 hne
    show (upsertWhere (dayKey sid day) _ _ db.days).find? (dayKey sid2 day2) = _
    refine find?_upsertWhere_other _ _ _ _ _ ?_ ?_ ?_
    · intro x hx
      cases hk : dayKey sid2 day2 x with
      | false => rfl
      | true =>
        exfalso
        simp only [dayKey, Bool.and_eq_true, beq_iff_eq] at hx hk
        exact hne ⟨by rw [← hk.1, hx.1], by rw [← hk.2, hx.2]⟩
    · intro x hx
      cases hk : dayKey sid2 day2 x with
      | false =>
        show dayKey sid2 day2 _ = false
        simp only [dayKey] at hk ⊢
        exact hk
      | true =>
        exfalso
        simp only [dayKey, Bool.and_eq_true, beq_iff_eq] at hx hk
        exact hne ⟨by rw [← hk.1, hx.1], by rw [← hk.2, hx.2]⟩
    · cases hk : dayKey sid2 day2
        { session_id := sid, day := day, time_period := tp,
          started_at := now, active_npcs := act, passive_npcs := pas } with
      | false => rfl
      | true =>
        exfalso
        simp only [dayKey, Bool.and_eq_true, beq_iff_eq] at hk
        exact hne ⟨hk.1.symm, hk.2.symm⟩

/-- A concrete populated day row, used by the C9 witness. -/
def exDayRow9 : DayData :=
  { session_id := "s1", day := 1, time_period := .morning,
    started_at := 7, dialogue_ids := [3], day_summary := some "old" }

/-- A concrete store holding `exDayRow9`. -/
def exDb9 : DBState := { days := [exDayRow9] }

/-- Witness for C9 at a concrete store. -/
theorem create_day_upsert_frame_witness :
    exDb9.get_day "s1" 1 = some exDayRow9 ∧
    (exDb9.create_day "s1" 1 .noon ["Alice"] ["Bob"] 99).1.get_day "s1" 1 =
      some { exDayRow9 with
              time_period := .noon,
              active_npcs := ["Alice"],
              passive_npcs := ["Bob"] } := by
  exact ⟨by decide,
    (create_day_upsert_frame exDb9 "s1" 1 .noon ["Alice"] ["Bob"] 99 exDayRow9 (by decide)).1⟩

/-! ## Claim C10: `create_session` on an existing id -/

/-- C10: `create_session` with an already-used (non-blank) `session_id`
does not raise any conflict error — the model, like the Python
`INSERT OR REPLACE`, is total: it replaces the stored session row with a
fresh session (`current_day = 1`, `current_period = morning`, empty
reputations, summary, active NPCs and dialogue ids) while the `days`,
`dialogues`, `messages` and `npc_memories` tables — including every row
keyed by that session id — are left untouched. -/
theorem create_session_replaces_existing (db : DBState) (sid : String)
    (gs as : String) (now : Nat)
    (hblank : (pyStrip sid == "") = false)
    (hex : (db.sessions.any (sessionKey sid)) = true) :
    ((db.create_session (some sid) gs as now).2 =
      { session_id := sid, created_at := now, last_updated := now,
        current_day := 1, current_time_period := .morning,
        game_settings := gs, agent_settings := as,
        reputations := [], session_summary := "",
        active_npcs := [], dialogue_ids := [] }) ∧
    ((db.create_session (some sid) gs as now).1.get_session sid =
      some (db.create_session (some sid) gs as now).2) ∧
    (db.create_session (some sid) gs as now).1.days = db.days ∧
    (db.create_session (some sid) gs as now).1.dialogues = db.dialogues ∧
    (db.create_session (some sid) gs as now).1.messages = db.messages ∧
    (db.create_session (some sid) gs as now).1.npc_memories = db.npc_memories := by
  unfold DBState.create_session
  simp only [hblank, Bool.false_eq_true, if_false]
  refine ⟨rfl, ?_, rfl, rfl, rfl, rfl⟩
  show (upsertWhere (sessionKey sid) _ _ db.sessions).find? (sessionKey sid) = _
  exact find?_upsertWhere_self_replace (sessionKey sid) _ db.sessions
    (by simp [sessionKey])

/-- A concrete well-used session row, for the C10 witness. -/
def exOldSession10 : SessionData :=
  { session_id := "s1", created_at := 0, last_updated := 4,
    current_day := 3, current_time_period := .night,
    session_summary := "stuff", dialogue_ids := [0, 1] }

/-- A concrete message row stored under `exOldSession10`'s session. -/
def exMessage10 : Message :=
  { message_id := 0, dialogue_id := 0, sender := "Alice",
    receiver := "Bob", message_text := "Hi", timestamp := 1 }

/-- A concrete store with a session and a message under it. -/
def exDb10 : DBState :=
  { sessions := [exOldSession10], messages := [exMessage10] }

/-- Witness for C10 at a concrete store holding a session and its data. -/
theorem create_session_replaces_existing_witness :
    ((pyStrip "s1" == "") = false) ∧
    (exDb10.sessions.any (sessionKey "s1") = true) ∧
    (exDb10.create_session (some "s1") "" "" 9).1.messages = [exMessage10] ∧
    (exDb10.create_session (some "s1") "" "" 9).2.current_day = 1 := by
  refine ⟨by decide, by decide, ?_, ?_⟩
  · exact (create_session_replaces_existing exDb10 "s1" "" "" 9
      (by decide) (by decide)).2.2.2.2.1
  · exact congrArg SessionData.current_day
      (create_session_replaces_existing exDb10 "s1" "" "" 9 (by decide) (by decide)).1

/-! ## Claim C7: lifecycle fallback when the CSV has only unknown names -/

/-- C7 counterexample: with roster `[Alice, Bob, Carol]` and a CSV that
names only the unknown `Zed`, the active list is the **full roster**,
not the first two roster names. -/
theorem lifecycle_unknown_names_counterexample :
    (∀ n ∈ ["Zed"], n ∉ ["Alice", "Bob", "Carol"]) ∧
    (update_life_cycle_map ["Alice", "Bob", "Carol"] ["Zed"]).1 =
      ["Alice", "Bob", "Carol"] ∧
    (update_life_cycle_map ["Alice", "Bob", "Carol"] ["Zed"]).1 ≠ ["Alice", "Bob"] := by
  refine ⟨by decide, by decide, by decide⟩

theorem foldl_mapInsert_active (valid : List String) :
    ∀ (l : List String) (m : List (String × String)), l.Nodup →
      (∀ c ∈ l, valid.contains c = true) →
      (∀ c ∈ l, m.any (fun p => p.1 == c) = false) →
      l.foldl (fun m c => if valid.contains c then mapInsert m c "active" else m) m =
        m ++ l.map (fun c => (c, "active")) := by
  intro l
  induction l with
  | nil => intro m _ _ _; simp
  | cons a l ih =>
    intro m hnd hval habs
    have ha := hval a (by simp)
    rw [List.foldl_cons, if_pos ha]
    have hins : mapInsert m a "active" = m ++ [(a, "active")] := by
      unfold mapInsert upsertWhere
      rw [if_neg (by simp [habs a (by simp)])]
    rw [hins, ih (m ++ [(a, "active")]) (List.nodup_cons.mp hnd).2
      (fun c hc => hval c (by simp [hc]))
      (fun c hc => by
        have hne : (a == c) = false := by
          have : a ≠ c := fun h => (List.nodup_cons.mp hnd).1 (h ▸ hc)
          simp [this]
        simp [List.any_append, habs c (by simp [hc]), List.any_cons, hne])]
    simp

theorem foldl_passive_noop :
    ∀ (l : List String) (m : List (String × String)),
      (∀ c ∈ l, m.any (fun p => p.1 == c) = true) →
      l.foldl (fun m c => if m.any (fun p => p.1 == c) then m else mapInsert m c "passive") m = m := by
  intro l
  induction l with
  | nil => intro m _; rfl
  | cons a l ih =>
    intro m h
    rw [List.foldl_cons, if_pos (h a (by simp))]
    exact ih m (fun c hc => h c (by simp [hc]))

/-- C7 (amended): when the lifecycle CSV names only characters outside
the (duplicate-free, non-empty) roster, the validated list is empty and
`decide_life_cycles` falls back to the **full roster**, so every roster
character becomes active (and none passive).  The first-two-names
fallback inside `update_life_cycle_map` is unreachable for a non-empty
roster, because `decide_life_cycles` never returns an empty list. -/
theorem lifecycle_unknown_names_full_roster (roster raw : List String)
    (hne : roster ≠ []) (hnd : roster.Nodup)
    (hunk : ∀ n ∈ raw, n ∉ roster) :
    update_life_cycle_map roster raw = (roster, []) := by
  have hfil : raw.filter (fun n => roster.contains n) = [] := by
    rw [List.filter_eq_nil_iff]
    intro a ha
    simp only [List.elem_iff]
    exact hunk a ha
  unfold update_life_cycle_map decide_life_cycles
  rw [hfil]
  simp only [List.isEmpty_nil, if_true]
  rw [foldl_mapInsert_active roster roster [] hnd
    (fun c hc => List.elem_iff.mpr hc)
    (fun c _ => by simp)]
  rw [List.nil_append]
  have hmap_ne : (roster.map fun c => (c, "active")).isEmpty = false := by
    cases roster with
    | nil => exact absurd rfl hne
    | cons a l => simp [List.map_cons]
  rw [if_neg (by simp [hmap_ne])]
  rw [foldl_passive_noop roster (roster.map fun c => (c, "active"))
    (fun c hc => List.any_eq_true.mpr
      ⟨(c, "active"), List.mem_map.mpr ⟨c, hc, rfl⟩, by simp⟩)]
  refine Prod.ext ?_ ?_
  · show (List.filter _ _).map _ = roster
    rw [List.filter_eq_self.mpr (fun p hp => by
      obtain ⟨c, _, rfl⟩ := List.mem_map.mp hp
      simp)]
    rw [List.map_map]
    show List.map (fun c => c) roster = roster
    exact List.map_id' roster
  · show (List.filter _ _).map _ = []
    rw [List.filter_eq_nil_iff.mpr (fun p hp => by
      obtain ⟨c, _, rfl⟩ := List.mem_map.mp hp
      simp)]
    rfl

/-- Witness for C7 (amended) at the concrete roster. -/
theorem lifecycle_unknown_names_full_roster_witness :
    (["Alice", "Bob", "Carol"] : List String) ≠ [] ∧
    (["Alice", "Bob", "Carol"] : List String).Nodup ∧
    (∀ n ∈ ["Zed"], n ∉ ["Alice", "Bob", "Carol"]) ∧
    update_life_cycle_map ["Alice", "Bob", "Carol"] ["Zed"] =
      (["Alice", "Bob", "Carol"], []) := by
  refine ⟨by decide, by decide, by decide, ?_⟩
  exact lifecycle_unknown_names_full_roster _ _ (by decide) (by decide) (by decide)

/-! ## Claim C6: schedule pair validity and orientation dedup -/

/-- Recipient-side validity of a scheduled pair: the recipient differs
from the speaker, is a known NPC name and is in the active roster. -/
def pairOk (all_npc_names active_npcs : List String) (pq : String × String) : Prop :=
  pq.2 ≠ pq.1 ∧ pq.2 ∈ all_npc_names ∧ pq.2 ∈ active_npcs

/-- The two-part invariant maintained by the pair-insertion loops. -/
def pairsInv (all_npc_names active_npcs : List String)
    (acc : List (String × String)) : Prop :=
  (∀ pq ∈ acc, pairOk all_npc_names active_npcs pq) ∧
  (∀ pq ∈ acc, (pq.2, pq.1) ∉ acc)

theorem pairs_insert_inv (all_npc_names active_npcs : List String)
    (name r : String) (acc : List (String × String))
    (hinv : pairsInv all_npc_names active_npcs acc)
    (hr : r ≠ name ∧ r ∈ all_npc_names ∧ r ∈ active_npcs) :
    pairsInv all_npc_names active_npcs
      (if !acc.contains (r, name) && !acc.contains (name, r) then
        acc ++ [(name, r)] else acc) := by
  by_cases hc : (!acc.contains (r, name) && !acc.contains (name, r)) = true
  · rw [if_pos hc]
    simp only [Bool.and_eq_true, Bool.not_eq_true'] at hc
    have hrn : (r, name) ∉ acc := by
      intro hmem
      have hct : acc.contains (r, name) = true := List.elem_iff.mpr hmem
      rw [hc.1] at hct
      exact Bool.false_ne_true hct
    constructor
    · intro pq hpq
      rcases List.mem_append.mp hpq with h | h
      · exact hinv.1 pq h
      · rcases List.mem_singleton.mp h with rfl
        exact hr
    · intro pq hpq
      rcases List.mem_append.mp hpq with h | h
      · intro hbad
        rcases List.mem_append.mp hbad with h2 | h2
        · exact hinv.2 pq h h2
        · rcases List.mem_singleton.mp h2 with h2
          have : pq = (r, name) := by
            have h1 : pq.2 = name := congrArg Prod.fst h2
            have h3 : pq.1 = r := congrArg Prod.snd h2
            exact Prod.ext h3 h1
          exact hrn (this ▸ h)
      · rcases List.mem_singleton.mp h with rfl
        intro hbad
        rcases List.mem_append.mp hbad with h2 | h2
        · exact hrn h2
        · rcases List.mem_singleton.mp h2 with h2
          exact hr.1 (congrArg Prod.fst h2)
  · rw [if_neg hc]
    exact hinv

theorem pairs_inner_fold_inv (all_npc_names active_npcs : List String)
    (name : String) :
    ∀ (sch : List String) (acc : List (String × String)),
      pairsInv all_npc_names active_npcs acc →
      (∀ r ∈ sch, r ≠ name ∧ r ∈ all_npc_names ∧ r ∈ active_npcs) →
      pairsInv all_npc_names active_npcs
        (sch.foldl
          (fun acc2 recipient =>
            if !acc2.contains (recipient, name) && !acc2.contains (name, recipient) then
              acc2 ++ [(name, recipient)]
            else acc2)
          acc) := by
  intro sch
  induction sch with
  | nil => intro acc hinv _; exact hinv
  | cons r sch ih =>
    intro acc hinv hsch
    rw [List.foldl_cons]
    exact ih _ (pairs_insert_inv all_npc_names active_npcs name r acc hinv
      (hsch r (by simp))) (fun x hx => hsch x (by simp [hx]))

theorem pairs_outer_fold_inv (all_npc_names active_npcs : List String)
    (sugg : String → List String) :
    ∀ (names : List String) (acc : List (String × String)),
      pairsInv all_npc_names active_npcs acc →
      pairsInv all_npc_names active_npcs
        (names.foldl
          (fun acc name =>
            ((schedule_character name active_npcs (sugg name)).filter
                (fun r => all_npc_names.contains r && r != name)).foldl
              (fun acc2 recipient =>
                if !acc2.contains (recipient, name) && !acc2.contains (name, recipient) then
                  acc2 ++ [(name, recipient)]
                else acc2)
              acc)
          acc) := by
  intro names
  induction names with
  | nil => intro acc hinv; exact hinv
  | cons name names ih =>
    intro acc hinv
    rw [List.foldl_cons]
    apply ih
    apply pairs_inner_fold_inv
    · exact hinv
    · intro r hr
      have h1 := List.mem_filter.mp hr
      have h2 := List.mem_filter.mp h1.1
      have hb1 : (all_npc_names.contains r && r != name) = true := h1.2
      have hb2 : (r != name && active_npcs.contains r) = true := h2.2
      simp only [Bool.and_eq_true] at hb1 hb2
      exact ⟨bne_iff_ne.mp hb1.2, List.elem_iff.mp hb1.1, List.elem_iff.mp hb2.2⟩

theorem phase_pairs_inv (active_npcs all_npc_names : List String)
    (sugg : String → List String) :
    pairsInv all_npc_names active_npcs (phase_pairs active_npcs all_npc_names sugg) := by
  exact pairs_outer_fold_inv all_npc_names active_npcs sugg active_npcs []
    ⟨fun pq h => absurd h (List.not_mem_nil pq),
     fun pq h => absurd h (List.not_mem_nil pq)⟩

/-- C6: every pair placed by `set_schedule` into a phase's pair set has
a recipient that differs from the speaker, is a valid NPC name and is in
the active roster; and the same phase never holds both orientations of
an unordered pair. -/
theorem set_schedule_pair_validity (active_npcs all_npc_names : List String)
    (suggestions : String → String → List String) (phases : List String)
    (phase : String) (pairs : List (String × String)) (p q : String)
    (hphase : (phase, pairs) ∈ set_schedule active_npcs all_npc_names suggestions phases)
    (hpq : (p, q) ∈ pairs) :
    q ≠ p ∧ q ∈ all_npc_names ∧ q ∈ active_npcs ∧ (q, p) ∉ pairs := by
  unfold set_schedule at hphase
  by_cases hemp : all_npc_names.isEmpty = true
  · rw [if_pos hemp] at hphase
    obtain ⟨x, _, hx⟩ := List.mem_map.mp hphase
    have hp : pairs = [] := (congrArg Prod.snd hx).symm
    subst hp
    exact absurd hpq (List.not_mem_nil _)
  · rw [if_neg hemp] at hphase
    obtain ⟨x, _, hx⟩ := List.mem_map.mp hphase
    have hpairs : pairs = phase_pairs active_npcs all_npc_names (suggestions x) :=
      (congrArg Prod.snd hx).symm
    subst hpairs
    have hinv := phase_pairs_inv active_npcs all_npc_names (suggestions x)
    have h1 := hinv.1 (p, q) hpq
    exact ⟨h1.1, h1.2.1, h1.2.2, hinv.2 (p, q) hpq⟩

/-- Witness for C6 on a concrete schedule run. -/
theorem set_schedule_pair_validity_witness :
    ("morning", [("Alice", "Bob")]) ∈
      set_schedule ["Alice", "Bob"] ["Alice", "Bob", "Carol"]
        (fun _ _ => ["Bob"]) ["morning"] ∧
    ("Alice", "Bob") ∈ [("Alice", "Bob")] ∧
    ("Bob" ≠ "Alice" ∧ "Bob" ∈ ["Alice", "Bob", "Carol"] ∧
      "Bob" ∈ ["Alice", "Bob"] ∧ ("Bob", "Alice") ∉ [("Alice", "Bob")]) := by
  refine ⟨by decide, by decide, ?_⟩
  exact set_schedule_pair_validity ["Alice", "Bob"] ["Alice", "Bob", "Carol"]
    (fun _ _ => ["Bob"]) ["morning"] "morning" [("Alice", "Bob")] "Alice" "Bob"
    (by decide) (by decide)

/-! ## Claims C2 and C3: the bounded turn loop -/

theorem dialogue_turn_next_of_append_ok (cfg : DialogueConfig)
    (oracle : DialogueOracle) (n : Nat) (s : TurnState)
    (h : oracle.append_ok n = true) :
    ∃ s', dialogue_turn cfg oracle n s = .nextTurn s' ∧
      s'.messages.length = s.messages.length + 1 ∧
      s'.message_count = s.message_count + 1 := by
  simp only [dialogue_turn, h, if_true]
  exact ⟨_, rfl, by simp, rfl⟩

theorem dialogue_turn_cases (cfg : DialogueConfig) (oracle : DialogueOracle)
    (n : Nat) (s : TurnState) :
    (∃ s', dialogue_turn cfg oracle n s = .nextTurn s' ∧
       s'.messages.length = s.messages.length + 1 ∧
       s'.message_count = s.message_count + 1) ∨
    (∃ s', dialogue_turn cfg oracle n s = .stopLoop s' ∧
       s'.messages = s.messages ∧ s'.message_count = s.message_count) := by
  cases h1 : oracle.append_ok n with
  | true => exact Or.inl (dialogue_turn_next_of_append_ok cfg oracle n s h1)
  | false =>
    cases h2 : oracle.fallback_append_ok n with
    | true =>
      left
      simp only [dialogue_turn, h1, h2, Bool.false_eq_true, if_false, if_true]
      exact ⟨_, rfl, by simp, rfl⟩
    | false =>
      right
      simp only [dialogue_turn, h1, h2, Bool.false_eq_true, if_false]
      exact ⟨_, rfl, rfl, rfl⟩

theorem dialogue_loop_message_bound (cfg : DialogueConfig) (oracle : DialogueOracle) :
    ∀ (fuel n : Nat) (s : TurnState),
      s.message_count = s.messages.length →
      s.messages.length ≤ cfg.max_messages_per_dialogue →
      (dialogue_loop cfg oracle fuel n s).messages.length ≤
        cfg.max_messages_per_dialogue := by
  intro fuel
  induction fuel with
  | zero => intro n s _ h2; exact h2
  | succ fuel ih =>
    intro n s h1 h2
    simp only [dialogue_loop]
    cases hg : loopGuard cfg s with
    | false => simp only [Bool.false_eq_true, if_false]; exact h2
    | true =>
      simp only [if_true]
      have hcount : s.message_count < cfg.max_messages_per_dialogue := by
        have := hg
        simp only [loopGuard, Bool.and_eq_true, decide_eq_true_eq] at this
        exact this.1.1
      rcases dialogue_turn_cases cfg oracle n s with
        ⟨s', hst, hlen, hcnt⟩ | ⟨s', hst, hlen, hcnt⟩
      · rw [hst]
        exact ih (n + 1) s' (by omega) (by omega)
      · rw [hst, hlen]
        exact h2

/-- C2 counterexample: with `max_messages_per_dialogue = 1` but
`goodbye_threshold = 0` the loop guard `goodbye_count < goodbye_threshold`
is false from the start, so **zero** messages are produced — refuting the
claim's unconditional "M = 1 produces exactly one message" for arbitrary
`goodbye_threshold`. -/
theorem execute_dialogue_boundary_counterexample :
    (execute_scheduled_dialogue
        { max_messages_per_dialogue := 1, max_tokens_per_dialogue := 2000,
          goodbye_threshold := 0 }
        { gen := fun _ _ => .ok "Hello there",
          append_ok := fun _ => true,
          fallback_append_ok := fun _ => true }
        "Alice" "Bob").messages.length = 0 ∧ (0 : Nat) ≠ 1 := by
  exact ⟨by decide, by decide⟩

/-- C2 (amended): with `M ≥ 1`, `T ≥ 1` and `G ≥ 1` (as in the defaults)
and message appends that never fail, the dialogue never contains more
than `M` messages, `ended_at` is set when the execution finishes, and in
the boundary case `M = 1` exactly one message is produced before the
dialogue ends. -/
theorem execute_dialogue_message_limits (cfg : DialogueConfig)
    (oracle : DialogueOracle) (i r : String)
    (hM : 1 ≤ cfg.max_messages_per_dialogue)
    (hT : 1 ≤ cfg.max_tokens_per_dialogue)
    (hG : 1 ≤ cfg.goodbye_threshold)
    (happ : ∀ n, oracle.append_ok n = true) :
    (execute_scheduled_dialogue cfg oracle i r).messages.length ≤
      cfg.max_messages_per_dialogue ∧
    (execute_scheduled_dialogue cfg oracle i r).ended = true ∧
    (cfg.max_messages_per_dialogue = 1 →
      (execute_scheduled_dialogue cfg oracle i r).messages.length = 1) := by
  refine ⟨?_, rfl, ?_⟩
  · show (dialogue_loop cfg oracle cfg.max_messages_per_dialogue 0
      { speaker := i, listener := r }).messages.length ≤ _
    exact dialogue_loop_message_bound cfg oracle _ 0 _ rfl (Nat.zero_le _)
  · intro hM1
    show (dialogue_loop cfg oracle cfg.max_messages_per_dialogue 0
      { speaker := i, listener := r }).messages.length = 1
    rw [hM1]
    have hg : loopGuard cfg { speaker := i, listener := r } = true := by
      simp only [loopGuard, Bool.and_eq_true, decide_eq_true_eq]
      omega
    obtain ⟨s', hst, hlen, _⟩ :=
      dialogue_turn_next_of_append_ok cfg oracle 0
        { speaker := i, listener := r } (happ 0)
    simp only [dialogue_loop, hg, if_true, hst]
    exact hlen

/-- Witness for C2 (amended) with `M = 1`. -/
theorem execute_dialogue_message_limits_witness :
    (execute_scheduled_dialogue
        { max_messages_per_dialogue := 1 }
        { gen := fun _ _ => .ok "Hello there",
          append_ok := fun _ => true,
          fallback_append_ok := fun _ => true }
        "Alice" "Bob").messages.length ≤ 1 ∧
    (execute_scheduled_dialogue
        { max_messages_per_dialogue := 1 }
        { gen := fun _ _ => .ok "Hello there",
          append_ok := fun _ => true,
          fallback_append_ok := fun _ => true }
        "Alice" "Bob").messages.length = 1 := by
  have h := execute_dialogue_message_limits
    { max_messages_per_dialogue := 1 }
    { gen := fun _ _ => .ok "Hello there",
      append_ok := fun _ => true,
      fallback_append_ok := fun _ => true }
    "Alice" "Bob" (by decide) (by decide) (by decide) (fun _ => rfl)
  exact ⟨h.1, h.2.2 rfl⟩

/-- The oracle of the C3 counterexample: generation times out on the
first turn and afterwards returns a goodbye-free sentence. -/
def exOracleTimeout : DialogueOracle :=
  { gen := fun n _ => if n == 0 then .timeout else .ok "The weather is nice today",
    append_ok := fun _ => true,
    fallback_append_ok := fun _ => true }

/-- C3 counterexample: under the default limits (10 messages, 2000
tokens, goodbye threshold 2), a generation timeout on turn 0 appends the
fallback text but leaves `goodbye_count = 1`, not
`goodbye_threshold = 2`; the dialogue then keeps running for the full 10
messages instead of transitioning to Ending. -/
theorem dialogue_timeout_counterexample :
    dialogue_turn {} exOracleTimeout 0 { speaker := "Alice", listener := "Bob" } =
      .nextTurn { message_count := 1, total_tokens := 7, goodbye_count := 1,
                  speaker := "Bob", listener := "Alice",
                  messages := [("Alice", "Bob", "I need to go now. Goodbye!")] } ∧
    (1 : Nat) ≠ ({} : DialogueConfig).goodbye_threshold ∧
    (execute_scheduled_dialogue {} exOracleTimeout "Alice" "Bob").messages.length = 10 := by
  exact ⟨by decide, by decide, by decide⟩

/-- C3 (amended): when generation times out or produces invalid output
in a turn (and the append succeeds), the fallback text
`"I need to go now. Goodbye!"` is appended as that turn's message and
`goodbye_count` increases by exactly **one** (the fallback text itself
contains goodbye phrases).  `goodbye_count := goodbye_threshold` is set
only in the `except` branch, which is reached when the message append
fails — not on generation timeout, which `_generate_npc_message`
swallows by returning the fallback text. -/
theorem dialogue_timeout_appends_fallback (cfg : DialogueConfig)
    (oracle : DialogueOracle) (n : Nat) (s : TurnState)
    (hgen : oracle.gen n (forceGoodbyeFlag cfg s) = .timeout ∨
            oracle.gen n (forceGoodbyeFlag cfg s) = .invalid)
    (happ : oracle.append_ok n = true) :
    dialogue_turn cfg oracle n s = .nextTurn { s with
      total_tokens := s.total_tokens + count_tokens fallbackText,
      goodbye_count := s.goodbye_count + 1,
      messages := s.messages ++ [(s.speaker, s.listener, fallbackText)],
      message_count := s.message_count + 1,
      speaker := s.listener,
      listener := s.speaker } := by
  have hfb : (fallbackText == "") = false := by decide
  have hgb : contains_goodbye fallbackText = true := by decide
  rcases hgen with hgen | hgen <;>
    simp only [dialogue_turn, hgen, hfb, hgb, happ, Bool.false_eq_true,
      if_false, if_true]

/-- Witness for C3 (amended) at the concrete timeout oracle. -/
theorem dialogue_timeout_appends_fallback_witness :
    (exOracleTimeout.gen 0
        (forceGoodbyeFlag {} { speaker := "Alice", listener := "Bob" }) = .timeout ∨
     exOracleTimeout.gen 0
        (forceGoodbyeFlag {} { speaker := "Alice", listener := "Bob" }) = .invalid) ∧
    dialogue_turn {} exOracleTimeout 0 { speaker := "Alice", listener := "Bob" } =
      .nextTurn { ({ speaker := "Alice", listener := "Bob" } : TurnState) with
        total_tokens := 0 + count_tokens fallbackText,
        goodbye_count := 0 + 1,
        messages := [] ++ [("Alice", "Bob", fallbackText)],
        message_count := 0 + 1,
        speaker := "Bob",
        listener := "Alice" } := by
  refine ⟨Or.inl (by decide), ?_⟩
  exact dialogue_timeout_appends_fallback {} exOracleTimeout 0
    { speaker := "Alice", listener := "Bob" } (Or.inl (by decide)) rfl

/-! ## Claims C1, C4, C8: a concrete `MemoryAgent` scenario

A small but fully populated state: one session, one day row, one active
dialogue between Alice and Bob, and NPC memories for both. -/

/-- The running dialogue of the example scenario. -/
def exDialogue : Dialogue :=
  { dialogue_id := 0, session_id := "s1", initiator := "Alice", receiver := "Bob",
    day := 1, location := "inn", time_period := .morning, started_at := 0 }

/-- The session of the example scenario. -/
def exSession : SessionData :=
  { session_id := "s1", created_at := 0, last_updated := 0, current_day := 1,
    current_time_period := .morning, dialogue_ids := [0] }

/-- Day 1 of the example scenario. -/
def exDay : DayData :=
  { session_id := "s1", day := 1, time_period := .morning, started_at := 0 }

/-- Alice's NPC-memory row, with a non-empty buffer. -/
def exMemAlice : NPCMemory :=
  { npc_name := "Alice", session_id := "s1", messages_summary := "old",
    messages_summary_length := 3, character_properties := some "props" }

/-- Bob's NPC-memory row. -/
def exMemBob : NPCMemory :=
  { npc_name := "Bob", session_id := "s1", character_properties := some "props" }

/-- The example `MemoryAgent` state with the dialogue still active. -/
def exAgent : MemoryAgentState :=
  { db := { sessions := [exSession], days := [exDay], dialogues := [exDialogue],
            npc_memories := [exMemAlice, exMemBob], next_dialogue_id := 1 },
    current_session := some exSession,
    active_dialogues := [exDialogue] }

/-- The example state after `end_dialogue(0)` at time 5. -/
def exAgentEnded : MemoryAgentState :=
  match exAgent.end_dialogue 0 none 5 with
  | .ok (st, _) => st
  | .error _ => exAgent

/-- `true` iff the result is `ok` (Python: no exception raised). -/
def exceptOk (r : Except MAError α) : Bool :=
  match r with
  | .ok _ => true
  | .error _ => false

/-- The raised error, if any. -/
def exceptError (r : Except MAError α) : Option MAError :=
  match r with
  | .ok _ => none
  | .error e => some e

/-- The successful result, if any. -/
def exceptResult (r : Except MAError α) : Option α :=
  match r with
  | .ok a => some a
  | .error _ => none

/-! ## Claim C4: re-applying `end_dialogue` -/

/-- C4 counterexample: ending the example dialogue twice; the second
call fails, but with `ValueError("Dialogue 0 not found")` — `end_dialogue`
looks the dialogue up in `active_dialogues`, from which the first call
removed it — not with a `DialogueStateError` as claimed. -/
theorem end_dialogue_reapply_counterexample :
    exceptOk (exAgent.end_dialogue 0 none 5) = true ∧
    exceptError (exAgentEnded.end_dialogue 0 none 7) =
      some (.valueError "Dialogue 0 not found") ∧
    raisesDialogueStateError (exAgentEnded.end_dialogue 0 none 7) = false := by
  refine ⟨by decide, by decide, by decide⟩

theorem find?_filter_not_key (key : α → Bool) (l : List α) :
    (l.filter fun r => !(key r)).find? key = none := by
  induction l with
  | nil => rfl
  | cons a l ih =>
    cases ha : key a with
    | true => simpa [List.filter_cons, ha] using ih
    | false =>
      rw [List.filter_cons]
      simp only [ha, Bool.not_false, if_true]
      rw [List.find?_cons_of_neg _ (by simp [ha])]
      exact ih

theorem activeLookup_activeRemove (l : List Dialogue) (id : Nat) :
    activeLookup (activeRemove l id) id = none :=
  find?_filter_not_key (dialogueKey id) l

/-- C4 (amended): re-applying `end_dialogue(d)` after it has ended fails
— the dialogue was deleted from `active_dialogues`, so the lookup misses
— but with `ValueError("Dialogue d not found")` raised before any write,
not with `DialogueStateError`; no stored state is touched (in this pure
model a failing call returns no successor state at all). -/
theorem end_dialogue_reapply_fails (st : MemoryAgentState) (id : Nat)
    (summary1 summary2 : Option String) (t1 t2 : Nat)
    (st1 : MemoryAgentState) (d1 : Dialogue)
    (h : st.end_dialogue id summary1 t1 = .ok (st1, d1)) :
    st1.end_dialogue id summary2 t2 =
      .error (.valueError ("Dialogue " ++ toString id ++ " not found")) := by
  unfold MemoryAgentState.end_dialogue at h ⊢
  cases hl : activeLookup st.active_dialogues id with
  | none => rw [hl] at h; exact absurd h (by simp)
  | some dlg =>
    rw [hl] at h
    have hact : activeRemove st.active_dialogues id = st1.active_dialogues :=
      congrArg
        (fun r => match r with
          | .ok (s, _) => s.active_dialogues
          | .error _ => ([] : List Dialogue)) h
    rw [← hact, activeLookup_activeRemove]

/-- Witness for C4 (amended): the concrete double-end run. -/
theorem end_dialogue_reapply_fails_witness :
    exAgent.end_dialogue 0 none 5 =
      .ok (exAgentEnded, { exDialogue with ended_at := some 5 }) ∧
    exAgentEnded.end_dialogue 0 none 7 =
      .error (.valueError ("Dialogue " ++ toString 0 ++ " not found")) := by
  refine ⟨rfl, ?_⟩
  exact end_dialogue_reapply_fails exAgent 0 none none 5 7 exAgentEnded
    { exDialogue with ended_at := some 5 } rfl

/-! ## Claim C1: appending to an ended dialogue

Frame lemmas: which state components each `MemoryAgent` step leaves
untouched. -/

theorem update_npc_memory_record_frame (st : MemoryAgentState) (n : String)
    (id : Nat) (txt hm : String) (now : Nat) :
    (st.update_npc_memory_record n id txt hm now).active_dialogues = st.active_dialogues ∧
    (st.update_npc_memory_record n id txt hm now).current_session = st.current_session ∧
    (st.update_npc_memory_record n id txt hm now).db.messages = st.db.messages ∧
    (st.update_npc_memory_record n id txt hm now).db.dialogues = st.db.dialogues ∧
    (st.update_npc_memory_record n id txt hm now).db.sessions = st.db.sessions ∧
    (st.update_npc_memory_record n id txt hm now).db.days = st.db.days := by
  unfold MemoryAgentState.update_npc_memory_record MemoryAgentState.get_npc_memory_agent
    MemoryAgentState.summarize_npc_memory_mark DBState.create_or_update_npc_memory
  dsimp only
  repeat' split
  all_goals exact ⟨rfl, rfl, rfl, rfl, rfl, rfl⟩

theorem append_session_summary_frame (st : MemoryAgentState) (text : String)
    (now : Nat) :
    (st.append_session_summary text now).active_dialogues = st.active_dialogues ∧
    (st.append_session_summary text now).db.messages = st.db.messages ∧
    (st.append_session_summary text now).db.dialogues = st.db.dialogues ∧
    (st.append_session_summary text now).db.npc_memories = st.db.npc_memories ∧
    (st.append_session_summary text now).db.days = st.db.days := by
  unfold MemoryAgentState.append_session_summary
    MemoryAgentState.summarize_session_memory_mark DBState.update_session
  dsimp only
  repeat' split
  all_goals exact ⟨rfl, rfl, rfl, rfl, rfl⟩

theorem append_day_summary_frame (st : MemoryAgentState) (day : Nat)
    (text : String) (now : Nat) :
    (st.append_day_summary day text now).active_dialogues = st.active_dialogues ∧
    (st.append_day_summary day text now).current_session = st.current_session ∧
    (st.append_day_summary day text now).db.messages = st.db.messages ∧
    (st.append_day_summary day text now).db.dialogues = st.db.dialogues ∧
    (st.append_day_summary day text now).db.npc_memories = st.db.npc_memories ∧
    (st.append_day_summary day text now).db.sessions = st.db.sessions := by
  unfold MemoryAgentState.append_day_summary
    MemoryAgentState.summarize_day_memory_mark DBState.update_day
  dsimp only
  repeat' split
  all_goals exact ⟨rfl, rfl, rfl, rfl, rfl, rfl⟩

theorem add_message_load_of_inactive (st : MemoryAgentState) (id : Nat)
    (now : Nat) (d : Dialogue)
    (hact : activeLookup st.active_dialogues id = none)
    (hdb : st.db.get_dialogue id = some d) :
    ∃ stX, st.add_message_load id now = .ok (stX, d) ∧
      stX.active_dialogues = activeInsert st.active_dialogues d ∧
      stX.db.messages = st.db.messages ∧
      stX.db.dialogues = st.db.dialogues ∧
      stX.db.npc_memories = st.db.npc_memories ∧
      stX.db.days = st.db.days := by
  unfold MemoryAgentState.add_message_load
  rw [hact, hdb]
  dsimp only
  repeat' split
  all_goals exact ⟨_, rfl, rfl, rfl, rfl, rfl, rfl⟩

theorem add_message_memories_frame (st : MemoryAgentState) (d : Dialogue)
    (sender receiver text hm : String) (now : Nat) :
    (st.add_message_memories d sender receiver text hm now).db.messages = st.db.messages ∧
    (st.add_message_memories d sender receiver text hm now).active_dialogues =
      st.active_dialogues ∧
    (st.add_message_memories d sender receiver text hm now).db.dialogues =
      st.db.dialogues := by
  unfold MemoryAgentState.add_message_memories
  dsimp only
  split
  · exact ⟨((update_npc_memory_record_frame _ _ _ _ _ _).2.2.1).trans
        ((update_npc_memory_record_frame _ _ _ _ _ _).2.2.1),
      ((update_npc_memory_record_frame _ _ _ _ _ _).1).trans
        ((update_npc_memory_record_frame _ _ _ _ _ _).1),
      ((update_npc_memory_record_frame _ _ _ _ _ _).2.2.2.1).trans
        ((update_npc_memory_record_frame _ _ _ _ _ _).2.2.2.1)⟩
  · exact ⟨((append_day_summary_frame _ _ _ _).2.2.1).trans
        (((append_session_summary_frame _ _ _).2.1).trans
          (((update_npc_memory_record_frame _ _ _ _ _ _).2.2.1).trans
            ((update_npc_memory_record_frame _ _ _ _ _ _).2.2.1))),
      ((append_day_summary_frame _ _ _ _).1).trans
        (((append_session_summary_frame _ _ _).1).trans
          (((update_npc_memory_record_frame _ _ _ _ _ _).1).trans
            ((update_npc_memory_record_frame _ _ _ _ _ _).1))),
      ((append_day_summary_frame _ _ _ _).2.2.2.1).trans
        (((append_session_summary_frame _ _ _).2.2.1).trans
          (((update_npc_memory_record_frame _ _ _ _ _ _).2.2.2.1).trans
            ((update_npc_memory_record_frame _ _ _ _ _ _).2.2.2.1)))⟩

theorem add_message_loaded_message (st : MemoryAgentState) (d : Dialogue)
    (sender receiver text hm : String) (now : Nat) :
    (st.add_message_loaded d sender receiver text hm now).2 =
      { message_id := (st.db.allocMessageId).1, dialogue_id := d.dialogue_id,
        sender := sender, receiver := receiver, message_text := text,
        timestamp := now } := rfl

theorem add_message_loaded_messages (st : MemoryAgentState) (d : Dialogue)
    (sender receiver text hm : String) (now : Nat) :
    (st.add_message_loaded d sender receiver text hm now).1.db.messages =
      st.db.messages ++ [(st.add_message_loaded d sender receiver text hm now).2] := by
  unfold MemoryAgentState.add_message_loaded
  dsimp only
  rw [(add_message_memories_frame _ _ _ _ _ _ _).1]
  exact rfl

theorem add_message_loaded_active (st : MemoryAgentState) (d : Dialogue)
    (sender receiver text hm : String) (now : Nat) :
    activeLookup
        (st.add_message_loaded d sender receiver text hm now).1.active_dialogues
        d.dialogue_id =
      some { d with
        message_ids := d.message_ids ++
          [(st.add_message_loaded d sender receiver text hm now).2.message_id],
        total_text_length := d.total_text_length + text.length } := by
  unfold MemoryAgentState.add_message_loaded
  dsimp only
  rw [(add_message_memories_frame _ _ _ _ _ _ _).2.1]
  exact find?_upsertWhere_self_replace _ _ _ (by simp [dialogueKey])

theorem add_message_loaded_stored (st : MemoryAgentState) (d : Dialogue)
    (sender receiver text hm : String) (now : Nat)
    (hdb : st.db.get_dialogue d.dialogue_id = some d) :
    ((st.add_message_loaded d sender receiver text hm now).1.db.get_dialogue
        d.dialogue_id).map (·.message_ids) =
      some (d.message_ids ++
        [(st.add_message_loaded d sender receiver text hm now).2.message_id]) := by
  unfold DBState.get_dialogue at hdb ⊢
  unfold MemoryAgentState.add_message_loaded DBState.update_dialogue
  dsimp only
  rw [(add_message_memories_frame _ _ _ _ _ _ _).2.2,
      show (st.db.create_message d.dialogue_id sender receiver text none none now).1.dialogues
        = st.db.dialogues from rfl,
      find?_modifyWhere_self _ _ _ d hdb (by simp [dialogueKey])]
  exact rfl

/-- The state/message pair returned when re-appending to the ended
example dialogue. -/
def exReopened : Option (MemoryAgentState × Message) :=
  exceptResult (exAgentEnded.add_message 0 "Alice" "Bob" "Hi" "10:00" 6)

/-- C1 counterexample: after `end_dialogue(0)` the dialogue is gone from
the active set and its stored row has `ended_at = 5`, yet
`add_message(0, Alice, Bob, "Hi")` **succeeds**: the message table grows
from 0 to 1 rows and the stored dialogue's `message_ids` becomes `[0]` —
the call neither fails nor leaves the dialogue unchanged. -/
theorem add_message_after_end_counterexample :
    activeLookup exAgentEnded.active_dialogues 0 = none ∧
    (exAgentEnded.db.get_dialogue 0).map (·.ended_at) = some (some 5) ∧
    exceptOk (exAgentEnded.add_message 0 "Alice" "Bob" "Hi" "10:00" 6) = true ∧
    exAgentEnded.db.messages.length = 0 ∧
    (exReopened.map fun p => p.1.db.messages.length) = some 1 ∧
    (exReopened.map fun p => (p.1.db.get_dialogue 0).map (·.message_ids)) =
      some (some [0]) := by
  refine ⟨by decide, by decide, by decide, by decide, by decide, by decide⟩

/-- C1 (amended): after a dialogue has been ended (removed from the
in-memory active set, `ended_at` set on its stored row), a subsequent
`add_message` does **not** fail and does **not** leave the dialogue
unchanged: it reloads the ended dialogue from the database into the
active cache and appends — the message is stored, and the dialogue's
`message_ids` and `total_text_length` grow both in the cache and in the
stored row (`ended_at` stays set). -/
theorem add_message_appends_to_ended_dialogue (st : MemoryAgentState) (id : Nat)
    (sender receiver text hm : String) (now : Nat) (d : Dialogue)
    (hact : activeLookup st.active_dialogues id = none)
    (hdb : st.db.get_dialogue id = some d) :
    ∃ st' msg,
      st.add_message id sender receiver text hm now = .ok (st', msg) ∧
      msg.sender = sender ∧ msg.receiver = receiver ∧ msg.message_text = text ∧
      st'.db.messages = st.db.messages ++ [msg] ∧
      activeLookup st'.active_dialogues id =
        some { d with
                message_ids := d.message_ids ++ [msg.message_id],
                total_text_length := d.total_text_length + text.length } ∧
      (st'.db.get_dialogue id).map (·.message_ids) =
        some (d.message_ids ++ [msg.message_id]) := by
  have hid : d.dialogue_id = id := by
    have hk := List.find?_some hdb
    simpa [dialogueKey] using hk
  obtain ⟨stX, hload, hXact, hXmsg, hXdlg, _, _⟩ :=
    add_message_load_of_inactive st id now d hact hdb
  unfold MemoryAgentState.add_message
  rw [hload]
  refine ⟨(stX.add_message_loaded d sender receiver text hm now).1,
          (stX.add_message_loaded d sender receiver text hm now).2,
          rfl, ?_, ?_, ?_, ?_, ?_, ?_⟩
  · rw [add_message_loaded_message]
  · rw [add_message_loaded_message]
  · rw [add_message_loaded_message]
  · rw [add_message_loaded_messages, hXmsg]
  · rw [← hid]
    have h := add_message_loaded_active stX d sender receiver text hm now
    rw [h]
  · rw [← hid]
    have hXdb : stX.db.get_dialogue d.dialogue_id = some d := by
      unfold DBState.get_dialogue at hdb ⊢
      rw [hXdlg, hid]
      exact hdb
    exact add_message_loaded_stored stX d sender receiver text hm now hXdb

/-- Witness for C1 (amended) at the ended example dialogue. -/
theorem add_message_appends_to_ended_dialogue_witness :
    activeLookup exAgentEnded.active_dialogues 0 = none ∧
    exAgentEnded.db.get_dialogue 0 = some { exDialogue with ended_at := some 5 } ∧
    (∃ st' msg,
      exAgentEnded.add_message 0 "Alice" "Bob" "Hi" "10:00" 6 = .ok (st', msg) ∧
      msg.sender = "Alice" ∧ msg.receiver = "Bob" ∧ msg.message_text = "Hi" ∧
      st'.db.messages = exAgentEnded.db.messages ++ [msg] ∧
      activeLookup st'.active_dialogues 0 =
        some { { exDialogue with ended_at := some 5 } with
                message_ids :=
                  { exDialogue with ended_at := some 5 }.message_ids ++ [msg.message_id],
                total_text_length :=
                  { exDialogue with ended_at := some 5 }.total_text_length +
                    "Hi".length } ∧
      (st'.db.get_dialogue 0).map (·.message_ids) =
        some ({ exDialogue with ended_at := some 5 }.message_ids ++ [msg.message_id])) := by
  refine ⟨by decide, by decide, ?_⟩
  exact add_message_appends_to_ended_dialogue exAgentEnded 0 "Alice" "Bob" "Hi"
    "10:00" 6 { exDialogue with ended_at := some 5 } (by decide) (by decide)

/-! ## Claim C8: the three memory-buffer appends of `add_message` -/

theorem data_ne_nil_of_left (a b : String) (h : a.data ≠ []) :
    (a ++ b).data ≠ [] := by
  show a.data ++ b.data ≠ []
  simp [h]

theorem stampedLine_ne_empty (day : Nat) (tp : TimePeriod)
    (sender receiver text : String) :
    (stampedLine day tp sender receiver text == "") = false := by
  apply beq_eq_false_iff_ne.mpr
  have hne : (stampedLine day tp sender receiver text).data ≠ [] := by
    unfold stampedLine
    repeat' apply data_ne_nil_of_left
    decide
  exact fun h => hne (congrArg String.data h)

theorem get_npc_memory_congr (db1 db2 : DBState) (n sid : String)
    (h : db1.npc_memories = db2.npc_memories) :
    db1.get_npc_memory n sid = db2.get_npc_memory n sid := by
  unfold DBState.get_npc_memory
  rw [h]

theorem get_day_congr (db1 db2 : DBState) (sid : String) (day : Nat)
    (h : db1.days = db2.days) :
    db1.get_day sid day = db2.get_day sid day := by
  unfold DBState.get_day
  rw [h]

theorem get_npc_memory_after_upsert_self (db : DBState) (m : NPCMemory)
    (n sid : String) (hn : m.npc_name = n) (hsid : m.session_id = sid) :
    (db.create_or_update_npc_memory m).get_npc_memory n sid = some m := by
  subst hn hsid
  unfold DBState.get_npc_memory DBState.create_or_update_npc_memory
  exact find?_upsertWhere_self_replace _ _ _ (by simp [npcMemoryKey])

theorem get_npc_memory_after_upsert_other (db : DBState) (m : NPCMemory)
    (n' sid' : String) (hne : m.npc_name ≠ n') :
    (db.create_or_update_npc_memory m).get_npc_memory n' sid' =
      db.get_npc_memory n' sid' := by
  unfold DBState.get_npc_memory DBState.create_or_update_npc_memory
  apply find?_upsertWhere_other
  · intro x hx
    simp only [npcMemoryKey, Bool.and_eq_true, beq_iff_eq] at hx
    simp only [npcMemoryKey]
    rw [hx.1]
    simp [hne]
  · intro x _
    simp [npcMemoryKey, hne]
  · simp [npcMemoryKey, hne]

/-- What `_update_npc_memory` writes when the session is loaded, the NPC
has a stored memory row and that row already carries character
properties: a single keyed upsert of the rewritten row. -/
theorem update_npc_memory_record_db (st : MemoryAgentState) (n : String)
    (id : Nat) (txt hm : String) (now : Nat) (s : SessionData) (m : NPCMemory)
    (hs : st.current_session = some s)
    (hm0 : st.db.get_npc_memory n s.session_id = some m)
    (hprops : m.character_properties.isSome = true) :
    ∃ mNew : NPCMemory,
      (st.update_npc_memory_record n id txt hm now).db =
        st.db.create_or_update_npc_memory mNew ∧
      mNew.npc_name = m.npc_name ∧
      mNew.session_id = m.session_id ∧
      mNew.messages_summary =
        m.messages_summary ++ ("\n" ++ ("[" ++ hm ++ "] " ++ txt)) := by
  obtain ⟨props, hp⟩ := Option.isSome_iff_exists.mp hprops
  unfold MemoryAgentState.update_npc_memory_record MemoryAgentState.get_npc_memory_agent
    MemoryAgentState.summarize_npc_memory_mark
  simp only [hs, hm0, hp]
  repeat' split
  all_goals exact ⟨_, rfl, rfl, rfl, rfl⟩

theorem update_npc_memory_record_buffer (st : MemoryAgentState) (n : String)
    (id : Nat) (txt hm : String) (now : Nat) (s : SessionData) (m : NPCMemory)
    (hs : st.current_session = some s)
    (hm0 : st.db.get_npc_memory n s.session_id = some m)
    (hprops : m.character_properties.isSome = true) :
    ((st.update_npc_memory_record n id txt hm now).db.get_npc_memory n
        s.session_id).map (·.messages_summary) =
      some (m.messages_summary ++ ("\n" ++ ("[" ++ hm ++ "] " ++ txt))) := by
  have hn : m.npc_name = n := by
    have hk := List.find?_some hm0
    simp only [npcMemoryKey, Bool.and_eq_true, beq_iff_eq] at hk
    exact hk.1
  have hsid : m.session_id = s.session_id := by
    have hk := List.find?_some hm0
    simp only [npcMemoryKey, Bool.and_eq_true, beq_iff_eq] at hk
    exact hk.2
  obtain ⟨mNew, hdb, hn', hsid', hsum⟩ :=
    update_npc_memory_record_db st n id txt hm now s m hs hm0 hprops
  rw [hdb, get_npc_memory_after_upsert_self st.db mNew n s.session_id
    (hn'.trans hn) (hsid'.trans hsid)]
  show some mNew.messages_summary = _
  rw [hsum]

theorem update_npc_memory_record_get_other (st : MemoryAgentState) (n : String)
    (id : Nat) (txt hm : String) (now : Nat) (s : SessionData) (m : NPCMemory)
    (n' sid' : String)
    (hs : st.current_session = some s)
    (hm0 : st.db.get_npc_memory n s.session_id = some m)
    (hprops : m.character_properties.isSome = true)
    (hne : n' ≠ n) :
    (st.update_npc_memory_record n id txt hm now).db.get_npc_memory n' sid' =
      st.db.get_npc_memory n' sid' := by
  have hn : m.npc_name = n := by
    have hk := List.find?_some hm0
    simp only [npcMemoryKey, Bool.and_eq_true, beq_iff_eq] at hk
    exact hk.1
  obtain ⟨mNew, hdb, hn', _, _⟩ :=
    update_npc_memory_record_db st n id txt hm now s m hs hm0 hprops
  rw [hdb]
  exact get_npc_memory_after_upsert_other _ _ _ _
    (by rw [hn', hn]; exact Ne.symm hne)

theorem append_session_summary_session (st : MemoryAgentState) (text : String)
    (now : Nat) (s : SessionData)
    (hs : st.current_session = some s)
    (ht : (text == "") = false) :
    (st.append_session_summary text now).current_session =
      some { s with session_summary :=
        s.session_summary ++ (if s.session_summary == "" then "" else "\n") ++ text } := by
  unfold MemoryAgentState.append_session_summary
    MemoryAgentState.summarize_session_memory_mark
  simp only [hs, ht, Bool.false_eq_true, if_false]
  repeat' split
  all_goals rfl

theorem append_day_summary_day (st : MemoryAgentState) (day : Nat)
    (text : String) (now : Nat) (s : SessionData) (dd : DayData)
    (hs : st.current_session = some s)
    (ht : (text == "") = false)
    (hdd : st.db.get_day s.session_id day = some dd) :
    ((st.append_day_summary day text now).db.get_day s.session_id day).map
      (·.day_summary) =
      some (some ((dd.day_summary.getD "") ++
        (if (dd.day_summary.getD "") == "" then "" else "\n") ++ text)) := by
  have hks : dd.session_id = s.session_id := by
    have hk := List.find?_some hdd
    simp only [dayKey, Bool.and_eq_true, beq_iff_eq] at hk
    exact hk.1
  have hkd : dd.day = day := by
    have hk := List.find?_some hdd
    simp only [dayKey, Bool.and_eq_true, beq_iff_eq] at hk
    exact hk.2
  unfold DBState.get_day at hdd ⊢
  unfold MemoryAgentState.append_day_summary
    MemoryAgentState.summarize_day_memory_mark DBState.update_day DBState.get_day
  simp only [hs, ht, Bool.false_eq_true, if_false, hdd]
  rw [← hks, ← hkd] at hdd ⊢
  repeat' split
  all_goals (rw [find?_modifyWhere_self _ _ _ dd hdd (by simp [dayKey])]; exact rfl)

theorem add_message_memories_spec (st : MemoryAgentState) (d : Dialogue)
    (sender receiver text hm : String) (now : Nat) (s : SessionData)
    (ms mr : NPCMemory) (dd : DayData)
    (hs : st.current_session = some s)
    (hsr : sender ≠ receiver)
    (hms : st.db.get_npc_memory sender s.session_id = some ms)
    (hmr : st.db.get_npc_memory receiver s.session_id = some mr)
    (hpms : ms.character_properties.isSome = true)
    (hpmr : mr.character_properties.isSome = true)
    (hdd : st.db.get_day s.session_id s.current_day = some dd) :
    (((st.add_message_memories d sender receiver text hm now).db.get_npc_memory
        sender s.session_id).map (·.messages_summary) =
      some (ms.messages_summary ++ ("\n" ++ ("[" ++ hm ++ "] " ++ text)))) ∧
    (((st.add_message_memories d sender receiver text hm now).db.get_npc_memory
        receiver s.session_id).map (·.messages_summary) =
      some (mr.messages_summary ++ ("\n" ++ ("[" ++ hm ++ "] " ++ text)))) ∧
    (((st.add_message_memories d sender receiver text hm now).current_session).map
        (·.session_summary) =
      some (s.session_summary ++ (if s.session_summary == "" then "" else "\n") ++
        stampedLine d.day d.time_period sender receiver text)) ∧
    (((st.add_message_memories d sender receiver text hm now).db.get_day
        s.session_id s.current_day).map (·.day_summary) =
      some (some ((dd.day_summary.getD "") ++
        (if (dd.day_summary.getD "") == "" then "" else "\n") ++
        stampedLine d.day d.time_period sender receiver text))) := by
  have hline : (stampedLine d.day d.time_period sender receiver text == "") = false :=
    stampedLine_ne_empty d.day d.time_period sender receiver text
  have hs3 : (st.update_npc_memory_record sender d.dialogue_id text hm
      now).current_session = some s :=
    ((update_npc_memory_record_frame st sender d.dialogue_id text hm now).2.1).trans hs
  have hm3r : (st.update_npc_memory_record sender d.dialogue_id text hm
      now).db.get_npc_memory receiver s.session_id = some mr :=
    (update_npc_memory_record_get_other st sender d.dialogue_id text hm now s ms
      receiver s.session_id hs hms hpms (Ne.symm hsr)).trans hmr
  have hsndbuf3 :
      (((st.update_npc_memory_record sender d.dialogue_id text hm
          now).db.get_npc_memory sender s.session_id).map (·.messages_summary)) =
        some (ms.messages_summary ++ ("\n" ++ ("[" ++ hm ++ "] " ++ text))) :=
    update_npc_memory_record_buffer st sender d.dialogue_id text hm now s ms hs hms hpms
  have hs4 : ((st.update_npc_memory_record sender d.dialogue_id text hm
      now).update_npc_memory_record receiver d.dialogue_id text hm
      now).current_session = some s :=
    ((update_npc_memory_record_frame _ receiver d.dialogue_id text hm now).2.1).trans hs3
  have hrcvbuf4 :
      ((((st.update_npc_memory_record sender d.dialogue_id text hm
          now).update_npc_memory_record receiver d.dialogue_id text hm
          now).db.get_npc_memory receiver s.session_id).map (·.messages_summary)) =
        some (mr.messages_summary ++ ("\n" ++ ("[" ++ hm ++ "] " ++ text))) :=
    update_npc_memory_record_buffer _ receiver d.dialogue_id text hm now s mr hs3
      hm3r hpmr
  have hsndbuf4 :
      ((((st.update_npc_memory_record sender d.dialogue_id text hm
          now).update_npc_memory_record receiver d.dialogue_id text hm
          now).db.get_npc_memory sender s.session_id).map (·.messages_summary)) =
        some (ms.messages_summary ++ ("\n" ++ ("[" ++ hm ++ "] " ++ text))) := by
    rw [update_npc_memory_record_get_other _ receiver d.dialogue_id text hm now s mr
      sender s.session_id hs3 hm3r hpmr hsr]
    exact hsndbuf3
  have hdd4 : ((st.update_npc_memory_record sender d.dialogue_id text hm
      now).update_npc_memory_record receiver d.dialogue_id text hm
      now).db.get_day s.session_id s.current_day = some dd :=
    (get_day_congr _ _ _ _
        ((update_npc_memory_record_frame _ receiver d.dialogue_id text hm
          now).2.2.2.2.2)).trans
      ((get_day_congr _ _ _ _
        ((update_npc_memory_record_frame st sender d.dialogue_id text hm
          now).2.2.2.2.2)).trans hdd)
  unfold MemoryAgentState.add_message_memories
  dsimp only
  rw [hs4]
  dsimp only
  have hsess5a := append_session_summary_session _
    (stampedLine d.day d.time_period sender receiver text) now s hs4 hline
  refine ⟨?_, ?_, ?_, ?_⟩
  · rw [get_npc_memory_congr _ _ sender s.session_id
        ((append_day_summary_frame _ _ _ _).2.2.2.2.1),
      get_npc_memory_congr _ _ sender s.session_id
        ((append_session_summary_frame _ _ _).2.2.2.1)]
    exact hsndbuf4
  · rw [get_npc_memory_congr _ _ receiver s.session_id
        ((append_day_summary_frame _ _ _ _).2.2.2.2.1),
      get_npc_memory_congr _ _ receiver s.session_id
        ((append_session_summary_frame _ _ _).2.2.2.1)]
    exact hrcvbuf4
  · rw [(append_day_summary_frame _ _ _ _).2.1, hsess5a]
    exact rfl
  · have hdd5a : ((((st.update_npc_memory_record sender d.dialogue_id text hm
          now).update_npc_memory_record receiver d.dialogue_id text hm
          now).append_session_summary
            (stampedLine d.day d.time_period sender receiver text)
            now).db.get_day s.session_id s.current_day = some dd) :=
      (get_day_congr _ _ _ _ ((append_session_summary_frame _ _ _).2.2.2.2)).trans hdd4
    exact append_day_summary_day _ s.current_day
      (stampedLine d.day d.time_period sender receiver text) now
      { s with session_summary :=
        s.session_summary ++ (if s.session_summary == "" then "" else "\n") ++
          stampedLine d.day d.time_period sender receiver text }
      dd hsess5a hline hdd5a

theorem add_message_load_of_active (st : MemoryAgentState) (id : Nat) (now : Nat)
    (d : Dialogue) (h : activeLookup st.active_dialogues id = some d) :
    st.add_message_load id now = .ok (st, d) := by
  unfold MemoryAgentState.add_message_load
  rw [h]

theorem add_message_loaded_buffers (st : MemoryAgentState) (d : Dialogue)
    (sender receiver text hm : String) (now : Nat) (s : SessionData)
    (ms mr : NPCMemory) (dd : DayData)
    (hs : st.current_session = some s)
    (hsr : sender ≠ receiver)
    (hms : st.db.get_npc_memory sender s.session_id = some ms)
    (hmr : st.db.get_npc_memory receiver s.session_id = some mr)
    (hpms : ms.character_properties.isSome = true)
    (hpmr : mr.character_properties.isSome = true)
    (hdd : st.db.get_day s.session_id s.current_day = some dd) :
    (((st.add_message_loaded d sender receiver text hm now).1.db.get_npc_memory
        sender s.session_id).map (·.messages_summary) =
      some (ms.messages_summary ++ ("\n" ++ ("[" ++ hm ++ "] " ++ text)))) ∧
    (((st.add_message_loaded d sender receiver text hm now).1.db.get_npc_memory
        receiver s.session_id).map (·.messages_summary) =
      some (mr.messages_summary ++ ("\n" ++ ("[" ++ hm ++ "] " ++ text)))) ∧
    (((st.add_message_loaded d sender receiver text hm now).1.current_session).map
        (·.session_summary) =
      some (s.session_summary ++ (if s.session_summary == "" then "" else "\n") ++
        stampedLine d.day d.time_period sender receiver text)) ∧
    (((st.add_message_loaded d sender receiver text hm now).1.db.get_day
        s.session_id s.current_day).map (·.day_summary) =
      some (some ((dd.day_summary.getD "") ++
        (if (dd.day_summary.getD "") == "" then "" else "\n") ++
        stampedLine d.day d.time_period sender receiver text))) := by
  unfold MemoryAgentState.add_message_loaded
  dsimp only
  refine add_message_memories_spec _ _ sender receiver text hm now s ms mr dd
    ?_ hsr ?_ ?_ hpms hpmr ?_
  · exact hs
  · exact hms
  · exact hmr
  · exact hdd

/-- C8 counterexample: in the example state (Alice's buffer `"old"`,
empty session summary), `add_message(0, Alice, Bob, "Hi")` at clock
`10:00` extends Alice's per-NPC buffer by `"\n[10:00] Hi"` — the
clock-stamped message text, not the claimed
`"\n" ++ "[Day 1 morning] Alice -> Bob: Hi"` — and starts the empty
session summary without the claimed leading `"\n"`. -/
theorem add_message_buffers_counterexample :
    ((exceptResult (exAgent.add_message 0 "Alice" "Bob" "Hi" "10:00" 6)).map
        (fun p => (p.1.db.get_npc_memory "Alice" "s1").map (·.messages_summary)) =
      some (some "old\n[10:00] Hi")) ∧
    "old\n[10:00] Hi" ≠
      "old" ++ "\n" ++ stampedLine 1 .morning "Alice" "Bob" "Hi" ∧
    ((exceptResult (exAgent.add_message 0 "Alice" "Bob" "Hi" "10:00" 6)).map
        (fun p => p.1.current_session.map (·.session_summary)) =
      some (some (stampedLine 1 .morning "Alice" "Bob" "Hi"))) ∧
    stampedLine 1 .morning "Alice" "Bob" "Hi" ≠
      "" ++ "\n" ++ stampedLine 1 .morning "Alice" "Bob" "Hi" := by
  refine ⟨by decide, by decide, by decide, by decide⟩

/-- C8 (amended): on every persisted message (with the dialogue active,
a session loaded, distinct participants whose memory rows exist with
character properties, and an existing current-day row), the three memory
layers are extended as follows: the per-NPC buffers of sender and
receiver each grow by `"\n" ++ "[HH:MM] message_text"` (the wall-clock
stamp, always with a leading newline); the per-session summary and the
per-current-day summary each grow by the stamped line
`"[Day D period] sender -> receiver: text"` with a `"\n"` separator only
when the buffer was non-empty. -/
theorem add_message_three_buffer_appends (st : MemoryAgentState) (id : Nat)
    (sender receiver text hm : String) (now : Nat) (s : SessionData)
    (d : Dialogue) (ms mr : NPCMemory) (dd : DayData)
    (hs : st.current_session = some s)
    (hact : activeLookup st.active_dialogues id = some d)
    (hsr : sender ≠ receiver)
    (hms : st.db.get_npc_memory sender s.session_id = some ms)
    (hmr : st.db.get_npc_memory receiver s.session_id = some mr)
    (hpms : ms.character_properties.isSome = true)
    (hpmr : mr.character_properties.isSome = true)
    (hdd : st.db.get_day s.session_id s.current_day = some dd) :
    ∃ st' msg, st.add_message id sender receiver text hm now = .ok (st', msg) ∧
      ((st'.db.get_npc_memory sender s.session_id).map (·.messages_summary) =
        some (ms.messages_summary ++ ("\n" ++ ("[" ++ hm ++ "] " ++ text)))) ∧
      ((st'.db.get_npc_memory receiver s.session_id).map (·.messages_summary) =
        some (mr.messages_summary ++ ("\n" ++ ("[" ++ hm ++ "] " ++ text)))) ∧
      ((st'.current_session).map (·.session_summary) =
        some (s.session_summary ++ (if s.session_summary == "" then "" else "\n") ++
          stampedLine d.day d.time_period sender receiver text)) ∧
      ((st'.db.get_day s.session_id s.current_day).map (·.day_summary) =
        some (some ((dd.day_summary.getD "") ++
          (if (dd.day_summary.getD "") == "" then "" else "\n") ++
          stampedLine d.day d.time_period sender receiver text))) := by
  unfold MemoryAgentState.add_message
  rw [add_message_load_of_active st id now d hact]
  dsimp only
  exact ⟨(st.add_message_loaded d sender receiver text hm now).1,
    (st.add_message_loaded d sender receiver text hm now).2, rfl,
    add_message_loaded_buffers st d sender receiver text hm now s ms mr dd
      hs hsr hms hmr hpms hpmr hdd⟩

/-- Witness for C8 (amended) at the concrete example state. -/
theorem add_message_three_buffer_appends_witness :
    exAgent.current_session = some exSession ∧
    activeLookup exAgent.active_dialogues 0 = some exDialogue ∧
    ("Alice" : String) ≠ "Bob" ∧
    (∃ st' msg,
      exAgent.add_message 0 "Alice" "Bob" "Hi" "10:00" 6 = .ok (st', msg) ∧
      ((st'.db.get_npc_memory "Alice" exSession.session_id).map (·.messages_summary) =
        some (exMemAlice.messages_summary ++ ("\n" ++ ("[" ++ "10:00" ++ "] " ++ "Hi")))) ∧
      ((st'.db.get_npc_memory "Bob" exSession.session_id).map (·.messages_summary) =
        some (exMemBob.messages_summary ++ ("\n" ++ ("[" ++ "10:00" ++ "] " ++ "Hi")))) ∧
      ((st'.current_session).map (·.session_summary) =
        some (exSession.session_summary ++
          (if exSession.session_summary == "" then "" else "\n") ++
          stampedLine exDialogue.day exDialogue.time_period "Alice" "Bob" "Hi")) ∧
      ((st'.db.get_day exSession.session_id exSession.current_day).map (·.day_summary) =
        some (some ((exDay.day_summary.getD "") ++
          (if (exDay.day_summary.getD "") == "" then "" else "\n") ++
          stampedLine exDialogue.day exDialogue.time_period "Alice" "Bob" "Hi")))) := by
  refine ⟨rfl, by decide, by decide, ?_⟩
  exact add_message_three_buffer_appends exAgent 0 "Alice" "Bob" "Hi" "10:00" 6
    exSession exDialogue exMemAlice exMemBob exDay rfl (by decide) (by decide)
    (by decide) (by decide) (by decide) (by decide) (by decide)

end GenAI
